import Mathlib

/-!
Verification development for the PODx attestation and settlement core.

The TypeScript sources are embedded shallowly: JavaScript numbers are
modelled as rationals (`ℚ`), JS strings as Lean `String` (or `List Char`
where character-level reasoning is needed), database rows as structures,
and the Prisma store as lists of rows.  External library calls (keccak,
HMAC, ECDSA recovery, JSON metadata rewriting, the chain RPC) enter the
model as explicit function parameters or oracle values, so every theorem
quantifies over their behaviour.
-/

/-- Floor of a rational in executable form (`q.num / q.den`; the kernel
can evaluate this, unlike `Int.floor`, so `decide` works on it). -/
def ratFloor (x : ℚ) : Int := x.num / x.den

theorem ratFloor_eq_floor (x : ℚ) : ratFloor x = Int.floor x := by
  rw [Rat.floor_def]; rfl

/-- JavaScript `Math.round`: round to the nearest integer, ties toward
positive infinity (`Math.round x = ⌊x + 1/2⌋`), written with integer
arithmetic only so that the kernel can evaluate it. -/
def jsRound (x : ℚ) : Int := (2 * x.num + x.den) / (2 * (x.den : Int))

theorem jsRound_eq_floor (x : ℚ) : jsRound x = Int.floor (x + 1/2) := by
  have hden : ((x.den : ℚ)) ≠ 0 := by exact_mod_cast x.den_nz
  have hx : x + 1/2 = ((2 * x.num + x.den : ℤ) : ℚ) / ((2 * x.den : ℕ) : ℚ) := by
    conv_lhs => rw [← Rat.num_div_den x]
    push_cast
    field_simp
    ring
  rw [hx, Rat.floor_intCast_div_natCast, jsRound]
  congr 1

/-- Round half to even (banker's rounding), the tie-breaking rule the spec
claims for coordinate scaling. -/
def roundHalfEven (x : ℚ) : Int :=
  let f := ratFloor x
  let r := x - f
  if r < 1/2 then f
  else if 1/2 < r then f + 1
  else if f % 2 = 0 then f else f + 1

/-- JavaScript `Math.floor` on a rational. -/
def jsFloor (x : ℚ) : Int := ratFloor x

/-- ASCII lower-casing of a character, as `String.prototype.toLowerCase`
acts on ASCII data (addresses and hex digests in this code base). -/
def asciiLowerChar (c : Char) : Char :=
  if 'A' ≤ c ∧ c ≤ 'Z' then Char.ofNat (c.toNat + 32) else c

/-- ASCII lower-casing of a string. -/
def asciiLower (s : String) : String := ⟨s.data.map asciiLowerChar⟩

/-- JavaScript `String.prototype.trim` restricted to ASCII whitespace. -/
def jsTrim (s : String) : String :=
  ⟨(s.data.dropWhile (fun c => c = ' ' ∨ c = '\t' ∨ c = '\n' ∨ c = '\r')).reverse.dropWhile
      (fun c => c = ' ' ∨ c = '\t' ∨ c = '\n' ∨ c = '\r') |>.reverse⟩

/-- Truthiness of an optional string, as JS `!x`: `null`/`undefined` and
the empty string are falsy. -/
def strFalsy : Option String → Bool
  | none => true
  | some s => s = ""

/-! ## §4.1 Attestation builder: `computeLocationHash`
(src/lib/shipment-attestation.ts, lines 78-82)

```ts
const latScaled = BigInt(Math.round(latitude * Number(SCALE)))
const lonScaled = BigInt(Math.round(longitude * Number(SCALE)))
return keccak256(coder.encode(["int256","int256","uint64"], [latScaled, lonScaled, claimedTs]))
```

`keccak256 ∘ abi.encode` is an external primitive; the embedding exposes
the exact argument tuple handed to it, and takes the hash itself as a
function parameter. -/

/-- The argument tuple `(int256 latScaled, int256 lonScaled, uint64 claimedTs)`
passed to `keccak256(abi.encode(...))`. -/
structure LocationHashInput where
  latScaled : Int
  lonScaled : Int
  claimedTs : Nat
deriving DecidableEq

/-- Scaled values computed by `computeLocationHash`: `Math.round(lat * 1e6)`
and `Math.round(lon * 1e6)`. -/
def computeLocationHashInput (latitude longitude : ℚ) (claimedTs : Nat) : LocationHashInput :=
  { latScaled := jsRound (latitude * 1000000)
    lonScaled := jsRound (longitude * 1000000)
    claimedTs := claimedTs }

/-- `computeLocationHash`, parameterised by the external
`keccak256 ∘ abi.encode` primitive. -/
def computeLocationHash {H : Type} (keccakAbiEncode : LocationHashInput → H)
    (latitude longitude : ℚ) (claimedTs : Nat) : H :=
  keccakAbiEncode (computeLocationHashInput latitude longitude claimedTs)

/-- The scaling the spec claims: identical except that exact halves are
rounded half-to-even. -/
def specLocationHashInput (latitude longitude : ℚ) (claimedTs : Nat) : LocationHashInput :=
  { latScaled := roundHalfEven (latitude * 1000000)
    lonScaled := roundHalfEven (longitude * 1000000)
    claimedTs := claimedTs }

/-! ## §4.2 Signature verifier (src/lib/verify-signature.ts)

```ts
try {
  const recovered = verifyTypedData(domain, types, message, signature)
  if (getAddress(recovered) === normalized) return { valid: true, recovered }
  return { valid: false, recovered }
} catch { /* ignored, fallback to ERC-1271 path */ }
try {
  const result = await contract.isValidSignature(digest, signature)
  return { valid: result === ERC1271_MAGIC_VALUE }
} catch { return { valid: false } }
```

`ethers.verifyTypedData` and the ERC-1271 view call are external; their
outcomes are the inputs of the model.  Addresses are taken already in
`getAddress` checksummed form, so address comparison is string equality. -/

/-- Outcome of `ethers.verifyTypedData`: a recovered (checksummed) address,
or a throw (malformed / non-ECDSA signature). -/
inductive RecoveryOutcome
  | recovered (addr : String)
  | throws
deriving DecidableEq

structure VerifyResult where
  valid : Bool
  recovered : Option String
deriving DecidableEq

def ERC1271_MAGIC_VALUE : String := "0x1626ba7e"

/-- Shallow embedding of `verifyTypedSignature`.  `erc1271Result` is the
value returned by the expected signer's `isValidSignature(digest, sig)`
view, `none` when that call throws (no code at the address, revert, RPC
failure). -/
def verifyTypedSignature (recovery : RecoveryOutcome) (erc1271Result : Option String)
    (expectedSigner : String) : VerifyResult :=
  match recovery with
  | .recovered r =>
      if r = expectedSigner then { valid := true, recovered := some r }
      else { valid := false, recovered := some r }
  | .throws =>
      match erc1271Result with
      | some magic => { valid := magic = ERC1271_MAGIC_VALUE, recovered := none }
      | none => { valid := false, recovered := none }

/-! ## §4.3 Geo primitives (geo lib, src/unnamed/part_011, and the radius
guards of the signing-session routes)

`geodesicDistance` is haversine over `Math.sin`/`Math.cos`/`Math.asin`;
transcendental, so the routes' guards are modelled over the distance value
it returns, and `isWithinRadius` takes the distance function as a
parameter. -/

/-- `isWithinRadius` (geo lib): `geodesicDistance(...) <= radiusM`. -/
def isWithinRadius (geodesicDistance : ℚ → ℚ → ℚ → ℚ → ℚ)
    (lat1 lon1 lat2 lon2 radiusM : ℚ) : Bool :=
  geodesicDistance lat1 lon1 lat2 lon2 ≤ radiusM

/-- The rejection test both signing-session routes apply:
`if (distanceToTarget > radiusMeters) return 4xx`. -/
def radiusRejects (distanceToTarget radiusMeters : ℚ) : Bool :=
  radiusMeters < distanceToTarget

/-- `DEFAULT_RADIUS_METERS`: `Number(process.env.MAX_DISTANCE_IN_METERS)`
when that parses to a finite number, else 2000. -/
def defaultRadiusMeters (envValue : Option ℚ) : ℚ :=
  match envValue with
  | some v => v
  | none => 2000

/-- Per-session radius resolution of the completion route:
`payloadData.radiusM` when it is a finite positive number, else the
global default. -/
def resolveRadius (radiusM : Option ℚ) (defaultRadius : ℚ) : ℚ :=
  match radiusM with
  | some r => if 0 < r then r else defaultRadius
  | none => defaultRadius

/-! ## Claim C8: coordinate scaling and rounding -/

/-- C8 counterexample: at `latitude = 1/400000` (so `lat·10^6 = 2.5`,
fractional part exactly one half) the code's `Math.round` gives 3 (half
toward +∞) while round-half-to-even gives 2, so the hash input differs
from the one the claim describes. -/
theorem C8_counterexample :
    (computeLocationHashInput (1/400000) 0 1).latScaled = 3 ∧
    (specLocationHashInput (1/400000) 0 1).latScaled = 2 ∧
    computeLocationHashInput (1/400000) 0 1 ≠ specLocationHashInput (1/400000) 0 1 := by
  have h1 : (computeLocationHashInput (1/400000) 0 1).latScaled = 3 := by
    show jsRound _ = 3
    rw [jsRound_eq_floor]
    norm_num
  have h2 : (specLocationHashInput (1/400000) 0 1).latScaled = 2 := by
    show roundHalfEven _ = 2
    rw [roundHalfEven]
    norm_num [ratFloor_eq_floor]
  refine ⟨h1, h2, fun h => ?_⟩
  have h3 : (computeLocationHashInput (1/400000) 0 1).latScaled
      = (specLocationHashInput (1/400000) 0 1).latScaled := by rw [h]
  rw [h1, h2] at h3
  exact absurd h3 (by decide)

/-- C8 amended: `computeLocationHash` hashes
`(Math.round(lat·10^6), Math.round(lon·10^6), claimedTs)` where the
rounding is to the nearest integer with ties toward positive infinity
(`⌊x + 1/2⌋`), not half-to-even: each scaled value is within 1/2 of the
exact product, and a fractional part of exactly one half rounds up. -/
theorem C8_theorem {H : Type} (keccakAbiEncode : LocationHashInput → H)
    (latitude longitude : ℚ) (claimedTs : Nat) :
    computeLocationHash keccakAbiEncode latitude longitude claimedTs
      = keccakAbiEncode (computeLocationHashInput latitude longitude claimedTs) ∧
    |latitude * 1000000 - ((computeLocationHashInput latitude longitude claimedTs).latScaled : ℚ)| ≤ 1/2 ∧
    (∀ n : Int, latitude * 1000000 = (n : ℚ) + 1/2 →
      (computeLocationHashInput latitude longitude claimedTs).latScaled = n + 1) ∧
    |longitude * 1000000 - ((computeLocationHashInput latitude longitude claimedTs).lonScaled : ℚ)| ≤ 1/2 ∧
    (∀ n : Int, longitude * 1000000 = (n : ℚ) + 1/2 →
      (computeLocationHashInput latitude longitude claimedTs).lonScaled = n + 1) ∧
    (computeLocationHashInput latitude longitude claimedTs).claimedTs = claimedTs := by
  have near : ∀ x : ℚ, |x - (jsRound x : ℚ)| ≤ 1/2 := by
    intro x
    rw [jsRound_eq_floor, abs_le]
    have h1 := Int.lt_floor_add_one (x + 1/2)
    have h2 := Int.floor_le (x + 1/2)
    constructor <;> [skip; skip] <;> push_cast at h1 h2 ⊢ <;> linarith
  have tie : ∀ (n : Int) (x : ℚ), x = (n : ℚ) + 1/2 → jsRound x = n + 1 := by
    intro n x h
    rw [jsRound_eq_floor, h]
    have : (n : ℚ) + 1/2 + 1/2 = ((n + 1 : Int) : ℚ) := by push_cast; ring
    rw [this, Int.floor_intCast]
  exact ⟨rfl, near _, fun n h => tie n _ h, near _, fun n h => tie n _ h, rfl⟩

/-- C8 witness: the amended theorem applied at `latitude = 1/400000`,
tie instance `n = 2`. -/
theorem C8_witness :
    (computeLocationHashInput (1/400000) 0 1).latScaled = 2 + 1 ∧
    computeLocationHash id (1/400000) 0 1 = id (computeLocationHashInput (1/400000) 0 1) :=
  ⟨( C8_theorem id (1/400000) 0 1).2.2.1 2 (by norm_num),
   ( C8_theorem id (1/400000) 0 1).1⟩

/-! ## Claim C2: ERC-1271 fallback after a mismatching ECDSA recovery -/

/-- C2 counterexample: ECDSA recovery succeeds with `0xDead`, the expected
signer is `0xCafe`, and the expected signer's `isValidSignature` view
returns the ERC-1271 magic value — yet the verifier returns
`valid = false`, because the ERC-1271 fallback runs only when recovery
throws. The claim predicts `valid = true` here. -/
theorem C2_counterexample :
    (verifyTypedSignature (.recovered "0xDead") (some ERC1271_MAGIC_VALUE) "0xCafe").valid = false ∧
    "0xDead" ≠ "0xCafe" ∧
    (verifyTypedSignature (.recovered "0xDead") (some ERC1271_MAGIC_VALUE) "0xCafe").recovered
      = some "0xDead" := by
  refine ⟨?_, by decide, ?_⟩ <;> simp [verifyTypedSignature, ERC1271_MAGIC_VALUE]

/-- C2 amended: when ECDSA recovery succeeds with an address different
from `expectedSigner`, the verifier returns `valid = false` with the
recovered address, never consulting ERC-1271; the ERC-1271 fallback
(magic value `0x1626ba7e` ⇒ `valid = true`) applies only when recovery
throws. -/
theorem C2_theorem (r expectedSigner : String) (erc1271Result : Option String)
    (h : r ≠ expectedSigner) :
    verifyTypedSignature (.recovered r) erc1271Result expectedSigner
      = { valid := false, recovered := some r } ∧
    (verifyTypedSignature .throws (some ERC1271_MAGIC_VALUE) expectedSigner).valid = true := by
  constructor
  · simp [verifyTypedSignature, h]
  · simp [verifyTypedSignature]

/-- C2 witness: the amended theorem at concrete addresses. -/
theorem C2_witness :
    verifyTypedSignature (.recovered "0xAAA") (some ERC1271_MAGIC_VALUE) "0xBBB"
      = { valid := false, recovered := some "0xAAA" } :=
  ( C2_theorem "0xAAA" "0xBBB" (some ERC1271_MAGIC_VALUE) (by decide)).1

/-! ## Claim C9: geofence radius semantics -/

/-- C9: a point is within the geofence iff the geodesic distance is at
most the radius; the routes' rejection test fires exactly when the
distance strictly exceeds the radius, so distance = radius passes and
distance = radius + 1 fails; the default radius is 2000 m (when the
`MAX_DISTANCE_IN_METERS` environment value is absent) and a per-session
positive `radiusM` overrides it. -/
theorem C9_theorem (geoDist : ℚ → ℚ → ℚ → ℚ → ℚ)
    (lat1 lon1 lat2 lon2 radius d override : ℚ) :
    (isWithinRadius geoDist lat1 lon1 lat2 lon2 radius = true
      ↔ geoDist lat1 lon1 lat2 lon2 ≤ radius) ∧
    (isWithinRadius geoDist lat1 lon1 lat2 lon2 radius
      = !radiusRejects (geoDist lat1 lon1 lat2 lon2) radius) ∧
    radiusRejects radius radius = false ∧
    radiusRejects (radius + 1) radius = true ∧
    defaultRadiusMeters none = 2000 ∧
    (0 < override → resolveRadius (some override) d = override) ∧
    resolveRadius none d = d := by
  refine ⟨by simp [isWithinRadius], ?_, ?_, ?_, rfl, ?_, rfl⟩
  · show decide _ = _
    rw [radiusRejects, ← decide_not, decide_eq_decide]
    exact not_lt.symm
  · simp [radiusRejects]
  · simp [radiusRejects]
  · intro h
    simp [resolveRadius, h]

/-- C9 witness: boundary instances of the radius rule at radius 2000, and
the per-session override at 500. -/
theorem C9_witness :
    radiusRejects 2000 2000 = false ∧
    radiusRejects (2000 + 1) 2000 = true ∧
    resolveRadius (some 500) 2000 = 500 := by
  have h := C9_theorem (fun _ _ _ _ => 0) 0 0 0 0 2000 2000 500
  exact ⟨h.2.2.1, h.2.2.2.1, h.2.2.2.2.2.1 (by norm_num)⟩

/-! ## §6 On-chain contracts
(src/contracts/src/EscrowPYUSD.sol, OrderRegistry.sol, ShipmentRegistry.sol)

Solidity reverts are modelled by `Option`/`none`: a reverted call leaves
no state change.  EIP-712 signature validation inside the registry is an
external primitive (ECDSA precompile / ERC-1271 call) and enters as two
boolean oracle values.  Access-control modifiers are not modelled: the
embedded entry points are exactly the ones the settlement coordinator
calls through the authorised path. -/

inductive OrderRegistryStatus
  | None | Created | Funded | Delivered | Disputed | Resolved
deriving DecidableEq

structure ChainOrder where
  buyer : String
  supplier : String
  amount : Nat
  status : OrderRegistryStatus
deriving DecidableEq

structure ChainShipment where
  buyer : String
  supplier : String
  courier : String
  orderId : Nat
  pickupCourierSigned : Bool
  pickupSupplierSigned : Bool
  dropCourierSigned : Bool
  dropBuyerSigned : Bool
  delivered : Bool
  pickupHash : String
  dropHash : String
  pickupTs : Nat
  dropTs : Nat
deriving DecidableEq

/-- Combined state of the three contracts.  `released` is the trace of
`IERC20.transfer` payouts made by `EscrowPYUSD.release` (payee, amount),
newest last. -/
structure ChainState where
  orders : List (Nat × ChainOrder)
  shipments : List (String × ChainShipment)
  escrowed : List (Nat × Nat)
  released : List (String × Nat)
deriving DecidableEq

/-- Solidity mapping read with zero default (`orders[orderId]`). -/
def lookupOrder (st : ChainState) (orderId : Nat) : ChainOrder :=
  match st.orders.find? (fun p => p.1 = orderId) with
  | some p => p.2
  | none => { buyer := "0x0", supplier := "0x0", amount := 0, status := .None }

/-- `escrowed[orderId]` with zero default. -/
def lookupEscrow (st : ChainState) (orderId : Nat) : Nat :=
  match st.escrowed.find? (fun p => p.1 = orderId) with
  | some p => p.2
  | none => 0

def setChainOrder (st : ChainState) (orderId : Nat) (o : ChainOrder) : ChainState :=
  { st with orders := (orderId, o) ::
      st.orders.filter (fun p => ¬ p.1 = orderId) }

def setEscrow (st : ChainState) (orderId : Nat) (v : Nat) : ChainState :=
  { st with escrowed := (orderId, v) ::
      st.escrowed.filter (fun p => ¬ p.1 = orderId) }

def setChainShipment (st : ChainState) (shipmentId : String) (s : ChainShipment) : ChainState :=
  { st with shipments := (shipmentId, s) ::
      st.shipments.filter (fun p => ¬ p.1 = shipmentId) }

/-- `EscrowPYUSD.release`: requires positive amount and sufficient
escrowed balance, then decrements the balance and transfers to the payee. -/
def escrowRelease (st : ChainState) (orderId : Nat) (payee : String) (amount : Nat) :
    Option ChainState :=
  if amount = 0 then none
  else
    let balance := lookupEscrow st orderId
    if balance < amount then none
    else some { (setEscrow st orderId (balance - amount)) with
                  released := st.released ++ [(payee, amount)] }

/-- First half of `OrderRegistry.releaseEscrowFromShipment`: when the
courier reward is positive, require `amount >= courierReward` and pay the
courier; returns the state and the remaining amount. -/
def releaseStep1 (st : ChainState) (orderId : Nat) (courier : String)
    (courierReward amount : Nat) : Option (ChainState × Nat) :=
  if 0 < courierReward then
    if amount < courierReward then none
    else (escrowRelease st orderId courier courierReward).map
      (fun st' => (st', amount - courierReward))
  else some (st, amount)

/-- Second half: pay the remaining amount to the supplier when positive. -/
def releaseStep2 (st1 : ChainState) (orderId : Nat) (supplier : String)
    (remaining : Nat) : Option ChainState :=
  if 0 < remaining then escrowRelease st1 orderId supplier remaining
  else some st1

/-- `OrderRegistry.releaseEscrowFromShipment`: requires the order Funded;
pays the courier reward first (requiring `amount >= courierReward`), then
the remainder of `order.amount` to the supplier; zeroes the order amount
and marks it Delivered. -/
def releaseEscrowFromShipment (st : ChainState) (orderId : Nat) (courier : String)
    (courierReward : Nat) : Option ChainState :=
  if (lookupOrder st orderId).status ≠ OrderRegistryStatus.Funded then none
  else
    match releaseStep1 st orderId courier courierReward (lookupOrder st orderId).amount with
    | none => none
    | some (st1, remaining) =>
      match releaseStep2 st1 orderId (lookupOrder st orderId).supplier remaining with
      | none => none
      | some st2 =>
          some (setChainOrder st2 orderId
            { lookupOrder st orderId with amount := 0, status := .Delivered })

/-- `ShipmentRegistry.REWARD_PER_METER` (token base units per meter). -/
def ShipmentRegistry_REWARD_PER_METER : Nat := 10

def UINT256_MAX : Nat :=
  115792089237316195423570985008687907853269984665640564039457584007913129639935

/-- `ShipmentRegistry._calculateReward`: `distanceMeters * 10`, reverting
(`DistanceOverflow`) when the product would overflow a uint256. -/
def calculateReward (distanceMeters : Nat) : Option Nat :=
  if distanceMeters = 0 then some 0
  else if UINT256_MAX / ShipmentRegistry_REWARD_PER_METER < distanceMeters then none
  else some (distanceMeters * ShipmentRegistry_REWARD_PER_METER)

structure DropApprovalSol where
  shipmentId : String
  orderId : Nat
  locationHash : String
  claimedTs : Nat
  distanceMeters : Nat
deriving DecidableEq

/-- Result of a successful `confirmDrop`: the new chain state and the
`courierReward` value emitted in the `DropApproved` event. -/
structure DropOutcome where
  state : ChainState
  courierReward : Nat
deriving DecidableEq

/-- `shipments[shipmentId]` with the Solidity zero-value default (whose
`orderId = 0` makes `_requireShipment` revert). -/
def chainShipmentAt (st : ChainState) (shipmentId : String) : ChainShipment :=
  match st.shipments.find? (fun p => p.1 = shipmentId) with
  | some p => p.2
  | none => { buyer := "0x0", supplier := "0x0", courier := "0x0", orderId := 0,
              pickupCourierSigned := false, pickupSupplierSigned := false,
              dropCourierSigned := false, dropBuyerSigned := false, delivered := false,
              pickupHash := "", dropHash := "", pickupTs := 0, dropTs := 0 }

/-- `ShipmentRegistry.confirmDrop`. `courierSigOk` / `buyerSigOk` are the
oracle outcomes of `_isValidSignature` for the two signatures. -/
def confirmDropChain (st : ChainState) (approval : DropApprovalSol)
    (courierSigOk buyerSigOk : Bool) : Option DropOutcome :=
  let shipment := chainShipmentAt st approval.shipmentId
  if shipment.orderId = 0 then none
  else if shipment.orderId ≠ approval.orderId then none
  else if ¬ (shipment.pickupCourierSigned ∧ shipment.pickupSupplierSigned) then none
  else if shipment.delivered then none
  else if ¬ courierSigOk then none
  else if ¬ buyerSigOk then none
  else
    match calculateReward approval.distanceMeters with
    | none => none
    | some reward =>
      let shipment' := { shipment with
        dropCourierSigned := true, dropBuyerSigned := true,
        dropHash := approval.locationHash, dropTs := approval.claimedTs,
        delivered := true }
      let st1 := setChainShipment st approval.shipmentId shipment'
      match releaseEscrowFromShipment st1 approval.orderId shipment.courier reward with
      | none => none
      | some st2 => some { state := st2, courierReward := reward }

/-- `ShipmentRegistry.confirmPickup`: guard chain of the pickup
confirmation; returns the updated state on success. -/
def confirmPickupChain (st : ChainState) (shipmentId : String) (orderId : Nat)
    (locationHash : String) (claimedTs : Nat) (courierSigOk supplierSigOk : Bool) :
    Option ChainState :=
  let shipment := chainShipmentAt st shipmentId
  if shipment.orderId = 0 then none
  else if shipment.orderId ≠ orderId then none
  else if shipment.delivered then none
  else if shipment.pickupCourierSigned ∨ shipment.pickupSupplierSigned then none
  else if ¬ courierSigOk then none
  else if ¬ supplierSigOk then none
  else some (setChainShipment st shipmentId
    { shipment with
        pickupCourierSigned := true
        pickupSupplierSigned := true
        pickupHash := locationHash
        pickupTs := claimedTs })

/-! ## DB-side reward extraction (src/unnamed/part_009, lines 409-434, 532-571) -/

/-- `REWARD_PER_METER` of the settlement route (10n). -/
def REWARD_PER_METER : Int := 10

/-- A receipt log as the route sees it: its address and, when
`iface.parseLog` yields a `DropApproved` event with a convertible
`courierReward` argument, that value. -/
structure ChainLog where
  address : String
  parsedDropReward : Option Int
deriving DecidableEq

def extractRewardLoop : List ChainLog → String → Int
  | [], _ => 0
  | l :: rest, normalized =>
      if asciiLower l.address = normalized then
        match l.parsedDropReward with
        | some r => r
        | none => extractRewardLoop rest normalized
      else extractRewardLoop rest normalized

/-- `extractCourierRewardFromLogs`: first `DropApproved` reward among the
logs whose address matches the registry (case-insensitively); 0 when the
registry address is empty or nothing parses. -/
def extractCourierRewardFromLogs (logs : List ChainLog) (registryAddress : String) : Int :=
  if registryAddress = "" then 0
  else extractRewardLoop logs (asciiLower registryAddress)

/-- The reward the route records in DB metadata: the parsed log value,
falling back to `distanceMeters * REWARD_PER_METER` when that value is 0. -/
def recordedCourierReward (logs : List ChainLog) (registryAddress : String)
    (distanceMeters : Int) : Int :=
  let fromLogs := extractCourierRewardFromLogs logs registryAddress
  if fromLogs = 0 then distanceMeters * REWARD_PER_METER else fromLogs

/-! ## Claim C3: courier reward derivation -/

theorem lookupOrder_setChainShipment (st : ChainState) (sid : String) (s : ChainShipment)
    (oid : Nat) : lookupOrder (setChainShipment st sid s) oid = lookupOrder st oid := rfl

theorem lookupEscrow_setChainShipment (st : ChainState) (sid : String) (s : ChainShipment)
    (oid : Nat) : lookupEscrow (setChainShipment st sid s) oid = lookupEscrow st oid := rfl

theorem released_setChainShipment (st : ChainState) (sid : String) (s : ChainShipment) :
    (setChainShipment st sid s).released = st.released := rfl

/-- Inversion of `_calculateReward`: a non-reverting call returns exactly
`distanceMeters * 10`. -/
theorem calculateReward_inv (d r : Nat) (h : calculateReward d = some r) :
    r = d * ShipmentRegistry_REWARD_PER_METER := by
  rw [calculateReward] at h
  split at h
  next hd => cases h; subst hd; rfl
  next =>
    split at h
    · cases h
    · cases h; rfl

/-- Inversion of `EscrowPYUSD.release`. -/
theorem escrowRelease_inv (st : ChainState) (oid : Nat) (payee : String) (amount : Nat)
    (st' : ChainState) (h : escrowRelease st oid payee amount = some st') :
    0 < amount ∧ amount ≤ lookupEscrow st oid ∧
    st'.released = st.released ++ [(payee, amount)] := by
  simp only [escrowRelease] at h
  split at h
  · cases h
  next hz =>
    split at h
    · cases h
    next hb =>
      cases h
      exact ⟨by omega, by omega, rfl⟩

theorem releaseStep1_inv (st : ChainState) (oid : Nat) (courier : String)
    (reward amount : Nat) (st1 : ChainState) (remaining : Nat)
    (h : releaseStep1 st oid courier reward amount = some (st1, remaining)) :
    remaining = amount - reward ∧
    (0 < reward → reward ≤ amount ∧ reward ≤ lookupEscrow st oid ∧
      st1.released = st.released ++ [(courier, reward)]) ∧
    (reward = 0 → st1 = st) := by
  rw [releaseStep1] at h
  split at h
  next hr =>
    split at h
    · cases h
    next hamt =>
      rw [Option.map_eq_some'] at h
      obtain ⟨stA, hrel, heq⟩ := h
      cases heq
      obtain ⟨_, hle, hrelA⟩ := escrowRelease_inv _ _ _ _ _ hrel
      exact ⟨rfl, fun _ => ⟨by omega, hle, hrelA⟩, fun h0 => absurd hr (by omega)⟩
  next hr =>
    cases h
    exact ⟨by omega, fun hc => absurd hc hr, fun _ => rfl⟩

theorem releaseStep2_inv (st1 : ChainState) (oid : Nat) (supplier : String)
    (remaining : Nat) (st2 : ChainState)
    (h : releaseStep2 st1 oid supplier remaining = some st2) :
    st2.released = st1.released ++
      (if 0 < remaining then [(supplier, remaining)] else []) := by
  rw [releaseStep2] at h
  split at h
  next hr =>
    obtain ⟨_, _, hrel⟩ := escrowRelease_inv _ _ _ _ _ h
    rw [if_pos hr, hrel]
  next hr =>
    cases h
    rw [if_neg hr, List.append_nil]

/-- Inversion of `OrderRegistry.releaseEscrowFromShipment`: success
requires the order Funded; a positive reward is bounded by both the order
amount and the escrowed balance; the payout trace is the courier reward
(when positive) followed by the remainder `amount − reward` to the
supplier (when positive). -/
theorem releaseEscrowFromShipment_inv (st : ChainState) (oid : Nat) (courier : String)
    (reward : Nat) (st' : ChainState)
    (h : releaseEscrowFromShipment st oid courier reward = some st') :
    (lookupOrder st oid).status = OrderRegistryStatus.Funded ∧
    (0 < reward → reward ≤ (lookupOrder st oid).amount ∧ reward ≤ lookupEscrow st oid) ∧
    st'.released = st.released ++
      (if 0 < reward then [(courier, reward)] else []) ++
      (if 0 < (lookupOrder st oid).amount - reward then
        [((lookupOrder st oid).supplier, (lookupOrder st oid).amount - reward)] else []) := by
  rw [releaseEscrowFromShipment] at h
  split at h
  · cases h
  next hfunded =>
    rw [not_ne_iff] at hfunded
    split at h
    · cases h
    next st1 remaining hstep1 =>
      split at h
      · cases h
      next st2 hstep2 =>
        cases h
        obtain ⟨hrem, hpos, hzero⟩ := releaseStep1_inv _ _ _ _ _ _ _ hstep1
        have hrel2 := releaseStep2_inv _ _ _ _ _ hstep2
        subst hrem
        refine ⟨hfunded, fun hr => ⟨(hpos hr).1, (hpos hr).2.1⟩, ?_⟩
        show st2.released = _
        by_cases hr : 0 < reward
        · rw [hrel2, (hpos hr).2.2, if_pos hr]
        · have h0 : reward = 0 := by omega
          rw [hrel2, hzero h0, if_neg hr]
          rw [List.append_nil]

/-- C3 amended: on every successful `confirmDrop` the emitted courier
reward is exactly `distanceMeters * REWARD_PER_METER` — never capped — a
positive reward is bounded by the order amount and by the escrowed
balance (otherwise the whole call reverts), the payout trace is the
courier reward followed by the remainder `amount − reward` to the
supplier; on the DB side the recorded reward is the parsed log value,
with `distanceMeters * 10` as fallback exactly when that value is 0. -/
theorem C3_theorem (st : ChainState) (approval : DropApprovalSol) (cOk bOk : Bool)
    (out : DropOutcome) (h : confirmDropChain st approval cOk bOk = some out)
    (logs : List ChainLog) (reg : String) (d : Int) :
    out.courierReward = approval.distanceMeters * ShipmentRegistry_REWARD_PER_METER ∧
    (0 < out.courierReward →
      out.courierReward ≤ (lookupOrder st approval.orderId).amount ∧
      out.courierReward ≤ lookupEscrow st approval.orderId) ∧
    out.state.released = st.released ++
      (if 0 < out.courierReward then
        [((chainShipmentAt st approval.shipmentId).courier, out.courierReward)] else []) ++
      (if 0 < (lookupOrder st approval.orderId).amount - out.courierReward then
        [((lookupOrder st approval.orderId).supplier,
          (lookupOrder st approval.orderId).amount - out.courierReward)] else []) ∧
    (extractCourierRewardFromLogs logs reg = 0 →
      recordedCourierReward logs reg d = d * REWARD_PER_METER) ∧
    (extractCourierRewardFromLogs logs reg ≠ 0 →
      recordedCourierReward logs reg d = extractCourierRewardFromLogs logs reg) := by
  have hfall1 : extractCourierRewardFromLogs logs reg = 0 →
      recordedCourierReward logs reg d = d * REWARD_PER_METER := by
    intro hz
    simp only [recordedCourierReward]
    rw [if_pos hz]
  have hfall2 : extractCourierRewardFromLogs logs reg ≠ 0 →
      recordedCourierReward logs reg d = extractCourierRewardFromLogs logs reg := by
    intro hz
    simp only [recordedCourierReward]
    rw [if_neg hz]
  simp only [confirmDropChain] at h
  split at h
  · cases h
  split at h
  · cases h
  split at h
  · cases h
  split at h
  · cases h
  split at h
  · cases h
  split at h
  · cases h
  split at h
  · cases h
  next reward hcalc =>
    split at h
    · cases h
    next st2 hrel =>
      cases h
      have hred := calculateReward_inv _ _ hcalc
      have hinv := releaseEscrowFromShipment_inv _ _ _ _ _ hrel
      rw [lookupOrder_setChainShipment, lookupEscrow_setChainShipment,
        released_setChainShipment] at hinv
      exact ⟨hred, hinv.2.1, hinv.2.2, hfall1, hfall2⟩

/-- Concrete chain fixture for C3: order 1 is Funded with amount 100 and
escrowed balance 100; the shipment has completed pickup. -/
def c3ChainShipment : ChainShipment :=
  { buyer := "0xB", supplier := "0xS", courier := "0xC", orderId := 1,
    pickupCourierSigned := true, pickupSupplierSigned := true,
    dropCourierSigned := false, dropBuyerSigned := false, delivered := false,
    pickupHash := "", dropHash := "", pickupTs := 0, dropTs := 0 }

def c3ChainState : ChainState :=
  { orders :=
      [(1, { buyer := "0xB", supplier := "0xS", amount := 100,
             status := OrderRegistryStatus.Funded })],
    shipments := [("0xSHIP", c3ChainShipment)],
    escrowed := [(1, 100)],
    released := [] }

def c3Approval (d : Nat) : DropApprovalSol :=
  { shipmentId := "0xSHIP", orderId := 1, locationHash := "0xLOC",
    claimedTs := 5, distanceMeters := d }

/-- C3 counterexample: with escrow = order amount = 100, a drop of 11 m
would earn 110 > 100 — the claim's capping (reward bounded by
`escrowedBalance − supplierAmount`, supplier paid the rest) predicts a
successful settlement with a reduced reward, but `confirmDrop` reverts
outright; and a successful 5 m drop records reward 50, which violates
`courierReward ≤ escrowedBalance − supplierAmount` (= 100 − 100 = 0) when
`supplierAmount` is the supplier's order amount. -/
theorem C3_counterexample :
    confirmDropChain c3ChainState (c3Approval 11) true true = none ∧
    (confirmDropChain c3ChainState (c3Approval 5) true true).map DropOutcome.courierReward
      = some 50 ∧
    lookupEscrow c3ChainState 1 - (lookupOrder c3ChainState 1).amount = 0 ∧
    ¬ (50 : Nat) ≤ 0 := by decide

/-- The successful 5 m drop outcome on the C3 fixture. -/
def c3Out : DropOutcome :=
  (confirmDropChain c3ChainState (c3Approval 5) true true).getD
    { state := c3ChainState, courierReward := 0 }

/-- C3 witness: the amended theorem applied to the concrete successful
drop (reward 50 = 5 m · 10, within both bounds). -/
theorem C3_witness :
    c3Out.courierReward = (c3Approval 5).distanceMeters * ShipmentRegistry_REWARD_PER_METER ∧
    c3Out.courierReward ≤ (lookupOrder c3ChainState 1).amount ∧
    c3Out.courierReward ≤ lookupEscrow c3ChainState 1 ∧
    recordedCourierReward [] "0xREG" 5 = 5 * REWARD_PER_METER := by
  have h := C3_theorem c3ChainState (c3Approval 5) true true c3Out (by decide) [] "0xREG" 5
  exact ⟨h.1, (h.2.1 (by decide)).1, (h.2.1 (by decide)).2, h.2.2.2.1 (by decide)⟩

/-! ## §3 Relational data model (Prisma rows) and the settlement route
(src/unnamed/part_009)

The stored session payload is a JSON string in the database; the model
keeps it parsed (`none` = `JSON.parse` throws), with `Option` fields
standing for the dynamic `typeof` checks of the route.  Metadata blobs
(`metadataRaw`) stay opaque strings; the JSON rewriting the route performs
on them enters through environment functions. -/

structure SessionPayload where
  shipmentHash : Option String
  chainOrderId : Option String
  claimedTs : Option ℚ
  currentLat : Option ℚ
  currentLon : Option ℚ
  distanceMeters : Option ℚ
  radiusM : Option ℚ
  pickupLat : Option ℚ
  pickupLon : Option ℚ
  dropLat : Option ℚ
  dropLon : Option ℚ
  locationHash : Option String
  targetDistance : Option ℚ
  metadataUri : Option String
deriving DecidableEq

structure Session where
  id : Nat
  sessionUid : String
  shipmentId : String
  orderId : String
  chainOrderId : String
  kind : String
  courier : String
  supplier : String
  deadline : ℚ
  status : String
  courierNonce : String
  supplierNonce : String
  contextHash : String
  courierSignature : Option String
  supplierSignature : Option String
  payload : Option SessionPayload
deriving DecidableEq

structure MagicLinkRow where
  id : Nat
  tokenHash : String
  role : String
  jti : String
  expiresAt : ℚ
  usedAt : Option ℚ
  sessionId : Nat
deriving DecidableEq

structure ShipmentRow where
  id : String
  orderId : String
  shipmentNo : Int
  supplier : String
  buyer : String
  assignedCourier : Option String
  pickupLat : Option ℚ
  pickupLon : Option ℚ
  dropLat : Option ℚ
  dropLon : Option ℚ
  status : String
  pickedUpAt : Option ℚ
  deliveredAt : Option ℚ
  metadataRaw : Option String
deriving DecidableEq

structure OrderRow where
  id : String
  buyer : String
  supplier : String
  status : String
  completedAt : Option ℚ
  metadataRaw : Option String
deriving DecidableEq

structure ProofRow where
  shipmentNo : Int
  kind : String
  signer : String
  claimedTs : ℚ
  photoHash : Option String
  photoCid : Option String
  litDistance : Option ℚ
  litOk : Bool
deriving DecidableEq

structure PaymentRow where
  id : Nat
  orderId : String
  payer : String
  payee : String
  status : String
  releaseTx : Option String
deriving DecidableEq

structure ProductRow where
  owner : String
  skuId : String
  name : String
  unit : String
  minThreshold : ℚ
  targetStock : Int
  active : Bool
deriving DecidableEq

structure Db where
  sessions : List Session
  magicLinks : List MagicLinkRow
  shipments : List ShipmentRow
  orders : List OrderRow
  proofs : List ProofRow
  payments : List PaymentRow
  products : List ProductRow
deriving DecidableEq

/-- One `{skuId, qty}` entry of the order metadata's `items` array, after
the route's `typeof`/`Number()` conversions (`none` = missing or NaN). -/
structure LineItem where
  skuId : Option String
  qty : Option ℚ
deriving DecidableEq

/-- The magic-link token payload as the completion route sees it. -/
structure TokenPayloadView where
  sid : String
  role : String
  jti : String
  exp : ℚ
deriving DecidableEq

/-- External collaborators of the settlement route: clock, configuration,
crypto primitives and JSON metadata rewriting. -/
structure SettleEnv where
  nowMs : ℚ
  defaultRadius : ℚ
  registryAddress : String
  verifyMagicLink : String → Option TokenPayloadView
  hashToken : String → String
  deriveRegistryId : String → String
  verifySig : String → String → Bool
  geoDist : ℚ → ℚ → ℚ → ℚ → ℚ
  metaShipPickup : Option String → String → ℚ → String
  metaOrderPickup : Option String → String → String
  metaShipDrop : Option String → String → Int → Int → ℚ → String
  metaOrderDrop : Option String → String → Int → ℚ → String
  lineItems : Option String → List LineItem

/-- A relational mutation inside a `prisma.$transaction` block. -/
inductive DbEffect
  | proofInsert
  | shipmentUpdate
  | orderUpdate
  | productUpsert
  | paymentUpdate
  | sessionCompleted
  | magicLinkUsed
deriving DecidableEq

/-- Observable step of a settlement run, in execution order. -/
inductive SettleEvent
  | chainConfirmPickup
  | chainConfirmDrop
  | dbTx (effects : List DbEffect)
deriving DecidableEq

/-- Outcome of the on-chain `confirmPickup`/`confirmDrop` submission
(`tx.wait()` included): a transaction hash and receipt logs, or a
rejection. -/
inductive ChainCallResult
  | ok (txHash : String) (logs : List ChainLog)
  | err (message : String)
deriving DecidableEq

def decDigitVal (c : Char) : Option Nat :=
  if '0' ≤ c ∧ c ≤ '9' then some (c.toNat - 48) else none

def hexDigitVal (c : Char) : Option Nat :=
  if '0' ≤ c ∧ c ≤ '9' then some (c.toNat - 48)
  else if 'a' ≤ c ∧ c ≤ 'f' then some (c.toNat - 87)
  else if 'A' ≤ c ∧ c ≤ 'F' then some (c.toNat - 55)
  else none

def digitsValue (base : Nat) (digitVal : Char → Option Nat) (cs : List Char) : Option Nat :=
  cs.foldl (fun acc c => acc.bind (fun n => (digitVal c).map (fun d => n * base + d))) (some 0)

/-- JS `BigInt(string)` on a trimmed non-empty string: decimal, `0x` hex,
or negative decimal; `none` models a throw.  (Exotic forms — `0b`/`0o`
prefixes, `+` sign — do not occur in this code base.) -/
def jsBigInt (s : String) : Option Int :=
  match s.data with
  | '0' :: 'x' :: rest =>
      if rest = [] then none else (digitsValue 16 hexDigitVal rest).map Int.ofNat
  | '-' :: rest =>
      if rest = [] then none else (digitsValue 10 decDigitVal rest).map (fun n => -(n : Int))
  | ds => if ds = [] then none else (digitsValue 10 decDigitVal ds).map Int.ofNat

/-- `parseChainOrderId` (shipment-registry lib), string branch as the
settlement route uses it. -/
def parseChainOrderId (raw : Option String) : Except String Int :=
  match raw with
  | none => .error "Missing on-chain order id"
  | some s =>
      let t := jsTrim s
      if t = "" then .error "Missing on-chain order id"
      else
        match jsBigInt t with
        | some v => .ok v
        | none => .error "Invalid on-chain order id"

def updateShipmentRow (l : List ShipmentRow) (id : String) (f : ShipmentRow → ShipmentRow) :
    List ShipmentRow :=
  l.map (fun s => if s.id = id then f s else s)

def updateOrderRow (l : List OrderRow) (id : String) (f : OrderRow → OrderRow) :
    List OrderRow :=
  l.map (fun o => if o.id = id then f o else o)

def updateSessionRow (l : List Session) (id : Nat) (f : Session → Session) :
    List Session :=
  l.map (fun s => if s.id = id then f s else s)

def updateMagicLinkRow (l : List MagicLinkRow) (id : Nat) (f : MagicLinkRow → MagicLinkRow) :
    List MagicLinkRow :=
  l.map (fun m => if m.id = id then f m else m)

def updatePaymentRow (l : List PaymentRow) (id : Nat) (f : PaymentRow → PaymentRow) :
    List PaymentRow :=
  l.map (fun p => if p.id = id then f p else p)

/-- `tx.product.upsert` keyed on `(owner, skuId)`: increment `targetStock`
and set `active` on update; create with the route's defaults otherwise. -/
def upsertProductRow (ps : List ProductRow) (owner skuId : String) (qty : Int) :
    List ProductRow :=
  if ps.any (fun p => p.owner = owner ∧ p.skuId = skuId) then
    ps.map (fun p =>
      if p.owner = owner ∧ p.skuId = skuId then
        { p with targetStock := p.targetStock + qty, active := true }
      else p)
  else
    ps ++ [{ owner := owner, skuId := skuId, name := skuId, unit := "unit",
             minThreshold := 0, targetStock := max 0 qty, active := true }]

/-- `incrementBuyerInventory`: one upsert per `items` entry with a
non-empty `skuId` and a finite positive quantity. -/
def incrementBuyerInventory (env : SettleEnv) (ps : List ProductRow) (order : OrderRow) :
    List ProductRow × List DbEffect :=
  (env.lineItems order.metadataRaw).foldl
    (fun acc entry =>
      match entry.skuId, entry.qty with
      | some skuId, some q =>
          if skuId = "" then acc
          else if 0 < q then
            (upsertProductRow acc.1 order.buyer skuId (jsRound q),
             acc.2 ++ [DbEffect.productUpsert])
          else acc
      | _, _ => acc)
    (ps, [])

/-- `finalizePickupMilestone` (src/unnamed/part_009, lines 215-348).
Returns the event trace (chain call, then the single relational
transaction) and either a thrown error message or the updated store with
the pickup transaction hash.  The on-chain call happens strictly before
the relational transaction; a chain rejection throws, leaving the store
untouched. -/
def finalizePickupMilestone (env : SettleEnv) (db : Db) (session : Session)
    (pd : SessionPayload) (supplierSignature : String) (chain : ChainCallResult) :
    List SettleEvent × Except String (Db × String) :=
  if jsTrim supplierSignature = "" then ([], .error "Supplier signature missing")
  else
    match db.shipments.find? (fun s => s.id = session.shipmentId) with
    | none => ([], .error "Shipment not found")
    | some shipment =>
      match db.orders.find? (fun o => o.id = session.orderId) with
      | none => ([], .error "Order not found")
      | some order =>
        let claimedTimestamp : ℚ := pd.claimedTs.getD ((jsFloor (env.nowMs / 1000) : Int) : ℚ)
        if ¬ (0 < claimedTimestamp) then ([], .error "Invalid pickup timestamp")
        else
          match pd.locationHash with
          | none => ([], .error "Session payload missing location hash")
          | some _locationHash =>
            match pd.shipmentHash with
            | none => ([], .error "Session payload missing shipment hash")
            | some shipmentHash =>
              if asciiLower shipmentHash ≠ asciiLower (env.deriveRegistryId session.shipmentId) then
                ([], .error "Shipment hash mismatch for pickup confirmation")
              else
                match parseChainOrderId pd.chainOrderId with
                | .error e => ([], .error e)
                | .ok _chainOrderNumeric =>
                  if strFalsy (session.courierSignature.map jsTrim) then
                    ([], .error "Courier signature missing")
                  else
                    match chain with
                    | .err m =>
                        ([SettleEvent.chainConfirmPickup],
                         .error ("Pickup confirmation failed: " ++ m))
                    | .ok txHash _logs =>
                        let newProof : ProofRow :=
                          { shipmentNo := shipment.shipmentNo, kind := "pickup-countersign",
                            signer := session.supplier, claimedTs := claimedTimestamp,
                            photoHash := none, photoCid := none,
                            litDistance := pd.targetDistance, litOk := true }
                        let shipmentNext := fun (s : ShipmentRow) =>
                          { s with
                              status := "InTransit"
                              pickedUpAt := some env.nowMs
                              assignedCourier :=
                                if strFalsy s.assignedCourier then some session.courier
                                else s.assignedCourier
                              metadataRaw :=
                                some (env.metaShipPickup s.metadataRaw txHash claimedTimestamp) }
                        let orderNext := fun (o : OrderRow) =>
                          { o with
                              status := "Shipped"
                              metadataRaw := some (env.metaOrderPickup o.metadataRaw txHash) }
                        let db' : Db :=
                          { db with
                              proofs := db.proofs ++ [newProof]
                              shipments := updateShipmentRow db.shipments shipment.id shipmentNext
                              orders := updateOrderRow db.orders order.id orderNext }
                        ([SettleEvent.chainConfirmPickup,
                          SettleEvent.dbTx [DbEffect.proofInsert, DbEffect.shipmentUpdate,
                            DbEffect.orderUpdate]],
                         .ok (db', txHash))

/-- `finalizeDropMilestone` (src/unnamed/part_009, lines 350-530).  Note
that it recomputes `plannedDistance` but never compares it with the
stored `distanceMeters` — the planned distance only serves as default and
metadata.  Success value: updated store, drop tx hash, recorded
`courierRewardWei`. -/
def finalizeDropMilestone (env : SettleEnv) (db : Db) (session : Session)
    (pd : SessionPayload) (buyerSignature : String) (chain : ChainCallResult) :
    List SettleEvent × Except String (Db × String × Int) :=
  if jsTrim buyerSignature = "" then ([], .error "Buyer signature missing")
  else
    match db.shipments.find? (fun s => s.id = session.shipmentId) with
    | none => ([], .error "Shipment not found")
    | some shipment =>
      match db.orders.find? (fun o => o.id = session.orderId) with
      | none => ([], .error "Order not found")
      | some order =>
        let claimedTimestamp : ℚ := pd.claimedTs.getD ((jsFloor (env.nowMs / 1000) : Int) : ℚ)
        if ¬ (0 < claimedTimestamp) then ([], .error "Invalid drop timestamp")
        else
          match shipment.pickupLat, shipment.pickupLon, shipment.dropLat, shipment.dropLon with
          | some pLat, some pLon, some dLat, some dLon =>
            (match pd.shipmentHash, pd.locationHash with
             | some shipmentHash, some _locationHash =>
               if asciiLower shipmentHash ≠ asciiLower (env.deriveRegistryId session.shipmentId) then
                 ([], .error "Shipment hash mismatch for drop confirmation")
               else
                 match parseChainOrderId pd.chainOrderId with
                 | .error e => ([], .error e)
                 | .ok _chainOrderNumeric =>
                   if strFalsy (session.courierSignature.map jsTrim) then
                     ([], .error "Courier signature missing")
                   else
                     let plannedDistance : Int := jsRound (env.geoDist pLat pLon dLat dLon)
                     let distanceMeters : Int :=
                       max 0 (jsRound (pd.distanceMeters.getD (plannedDistance : ℚ)))
                     match chain with
                     | .err m =>
                         ([SettleEvent.chainConfirmDrop],
                          .error ("Drop confirmation failed: " ++ m))
                     | .ok txHash logs =>
                         let courierRewardWei :=
                           recordedCourierReward logs env.registryAddress distanceMeters
                         let newProof : ProofRow :=
                           { shipmentNo := shipment.shipmentNo, kind := "drop-countersign",
                             signer := session.supplier, claimedTs := claimedTimestamp,
                             photoHash := none, photoCid := none,
                             litDistance := some (distanceMeters : ℚ), litOk := true }
                         let shipmentNext := fun (s : ShipmentRow) =>
                           { s with
                               status := "Delivered"
                               deliveredAt := some env.nowMs
                               metadataRaw := some (env.metaShipDrop s.metadataRaw txHash
                                 courierRewardWei plannedDistance claimedTimestamp) }
                         let orderNext := fun (o : OrderRow) =>
                           { o with
                               status := "Delivered"
                               completedAt := some env.nowMs
                               metadataRaw := some (env.metaOrderDrop o.metadataRaw txHash
                                 courierRewardWei claimedTimestamp) }
                         let afterInventory :=
                           incrementBuyerInventory env db.products order
                         let paymentHit := db.payments.find? (fun p =>
                           p.orderId = order.id ∧ p.payer = order.buyer ∧ p.payee = order.supplier)
                         let payments' :=
                           match paymentHit with
                           | some payment =>
                               updatePaymentRow db.payments payment.id (fun p =>
                                 { p with status := "Released", releaseTx := some txHash })
                           | none => db.payments
                         let db' : Db :=
                           { db with
                               proofs := db.proofs ++ [newProof]
                               shipments := updateShipmentRow db.shipments shipment.id shipmentNext
                               orders := updateOrderRow db.orders order.id orderNext
                               products := afterInventory.1
                               payments := payments' }
                         ([SettleEvent.chainConfirmDrop,
                           SettleEvent.dbTx ([DbEffect.proofInsert, DbEffect.shipmentUpdate,
                             DbEffect.orderUpdate] ++ afterInventory.2 ++
                             (match paymentHit with
                              | some _ => [DbEffect.paymentUpdate]
                              | none => []))],
                          .ok (db', txHash, courierRewardWei))
             | _, _ => ([], .error "Session payload missing shipment hash"))
          | _, _, _, _ => ([], .error "Shipment missing coordinates")

/-- Successful guard stage of the completion `POST`
(src/unnamed/part_009, lines 26-174): session, magic link, parsed payload
and the counterparty signature. -/
structure GuardData where
  session : Session
  magicLink : MagicLinkRow
  payloadData : SessionPayload
  signature : String
deriving DecidableEq

/-- Guard chain of the completion `POST`, up to and including the
counterparty signature verification.  No relational write happens here. -/
def signPostGuards (env : SettleEnv) (db : Db) (sessionId : String)
    (token : Option String) (bodySignature : Option String) :
    Except (Nat × String) GuardData :=
  match token with
  | none => .error (400, "Token required")
  | some tok =>
    match env.verifyMagicLink tok with
    | none => .error (403, "Link expired or invalid")
    | some payload =>
      match db.sessions.find? (fun s => s.sessionUid = sessionId) with
      | none => .error (404, "Session not found")
      | some session =>
        if payload.sid ≠ sessionId ∨
           payload.role ≠ (if session.kind = "drop" then "buyer" else "supplier") then
          .error (403, "Token invalid for this session")
        else
          match db.magicLinks.find? (fun m => m.tokenHash = env.hashToken tok) with
          | none => .error (409, "Link already used")
          | some magicLink =>
            if magicLink.usedAt.isSome then .error (409, "Link already used")
            else if magicLink.expiresAt < env.nowMs then .error (403, "Link expired")
            else if session.status ≠
                (if session.kind = "drop" then "PENDING_BUYER" else "PENDING_SUPPLIER") then
              .error (409, "Session no longer available")
            else if strFalsy session.courierSignature then
              .error (500, "Courier signature missing")
            else
              match bodySignature with
              | none => .error (400, "Signature required")
              | some sig =>
                if jsTrim sig = "" then .error (400, "Signature required")
                else
                  match session.payload with
                  | none => .error (500, "Stored session payload corrupted")
                  | some pd =>
                    match pd.shipmentHash, pd.chainOrderId, pd.claimedTs,
                        pd.currentLat, pd.currentLon with
                    | some _, some _, some _, some cLat, some cLon =>
                      if session.kind = "drop" ∧ pd.distanceMeters = none then
                        .error (500, "Session payload missing distance")
                      else
                        match (if session.kind = "drop" then pd.dropLat else pd.pickupLat),
                            (if session.kind = "drop" then pd.dropLon else pd.pickupLon) with
                        | some tLat, some tLon =>
                          if radiusRejects (env.geoDist tLat tLon cLat cLon)
                              (resolveRadius pd.radiusM env.defaultRadius) then
                            .error (403, "Courier location outside radius")
                          else if ¬ env.verifySig session.supplier sig then
                            .error (400, "Signature invalid")
                          else .ok { session := session, magicLink := magicLink,
                                     payloadData := pd, signature := sig }
                        | _, _ =>
                          .error (500, "Session payload missing target coordinates")
                    | _, _, _, _, _ =>
                      .error (500, "Session payload missing required data")

/-- The final `prisma.$transaction` of the `POST`: session `COMPLETED`
with the counterparty signature stored, magic link `usedAt = now`. -/
def completeSessionTx (env : SettleEnv) (db : Db) (session : Session)
    (magicLink : MagicLinkRow) (sig : String) : Db :=
  { db with
      sessions := updateSessionRow db.sessions session.id (fun s =>
        { s with status := "COMPLETED", supplierSignature := some sig })
      magicLinks := updateMagicLinkRow db.magicLinks magicLink.id (fun m =>
        { m with usedAt := some env.nowMs }) }

/-- Result of the completion `POST`: a JSON response, or an exception
escaping the handler (surfaced as a 500 by the framework). -/
inductive PostResult
  | ok (dropTx : Option String)
  | httpError (status : Nat) (message : String)
  | thrown (message : String)
deriving DecidableEq

/-- The completion `POST` of src/unnamed/part_009 end to end: guards,
milestone finalisation (chain call first, then its relational
transaction), then the separate session/magic-link transaction. -/
def signPost (env : SettleEnv) (db : Db) (sessionId : String) (token : Option String)
    (bodySignature : Option String) (chain : ChainCallResult) :
    PostResult × Db × List SettleEvent :=
  match signPostGuards env db sessionId token bodySignature with
  | .error e => (.httpError e.1 e.2, db, [])
  | .ok g =>
    if g.session.kind = "drop" then
      match finalizeDropMilestone env db g.session g.payloadData g.signature chain with
      | (events, .error m) => (.thrown m, db, events)
      | (events, .ok (db1, dropTx, _reward)) =>
          (.ok (some dropTx),
           completeSessionTx env db1 g.session g.magicLink g.signature,
           events ++ [SettleEvent.dbTx [DbEffect.sessionCompleted, DbEffect.magicLinkUsed]])
    else
      match finalizePickupMilestone env db g.session g.payloadData g.signature chain with
      | (events, .error m) => (.thrown m, db, events)
      | (events, .ok (db1, _tx)) =>
          (.ok none,
           completeSessionTx env db1 g.session g.magicLink g.signature,
           events ++ [SettleEvent.dbTx [DbEffect.sessionCompleted, DbEffect.magicLinkUsed]])

/-! ## Claims C1, C4, C6, C7: settlement behaviour -/

/-- `true` iff no chain-call event appears after a relational transaction
event: the on-chain submission precedes every relational commit. -/
def chainBeforeDbCommit : List SettleEvent → Bool
  | [] => true
  | SettleEvent.dbTx _ :: rest =>
      rest.all (fun e =>
        match e with
        | SettleEvent.dbTx _ => true
        | _ => false)
  | _ :: rest => chainBeforeDbCommit rest

/-- Case analysis of `finalizePickupMilestone`: a run fails before the
chain call with an empty trace, fails at the chain call (only when the
chain rejected), or commits its single relational transaction after a
successful chain call. -/
theorem finalizePickup_cases (env : SettleEnv) (db : Db) (session : Session)
    (pd : SessionPayload) (sig : String) (chain : ChainCallResult) :
    (∃ m, finalizePickupMilestone env db session pd sig chain = ([], Except.error m)) ∨
    (∃ m cm, finalizePickupMilestone env db session pd sig chain
        = ([SettleEvent.chainConfirmPickup], Except.error m)
      ∧ chain = ChainCallResult.err cm) ∨
    (∃ db1 tx logs, finalizePickupMilestone env db session pd sig chain
        = ([SettleEvent.chainConfirmPickup,
            SettleEvent.dbTx [DbEffect.proofInsert, DbEffect.shipmentUpdate,
              DbEffect.orderUpdate]],
           Except.ok (db1, tx))
      ∧ chain = ChainCallResult.ok tx logs) := by
  simp only [finalizePickupMilestone]
  repeat' split
  all_goals first
    | exact Or.inl ⟨_, rfl⟩
    | exact Or.inr (Or.inl ⟨_, _, rfl, rfl⟩)
    | exact Or.inr (Or.inr ⟨_, _, _, rfl, rfl⟩)

/-- Case analysis of `finalizeDropMilestone`, in the same three shapes
(the successful transaction additionally carries the inventory upserts
and the optional payment update). -/
theorem finalizeDrop_cases (env : SettleEnv) (db : Db) (session : Session)
    (pd : SessionPayload) (sig : String) (chain : ChainCallResult) :
    (∃ m, finalizeDropMilestone env db session pd sig chain = ([], Except.error m)) ∨
    (∃ m cm, finalizeDropMilestone env db session pd sig chain
        = ([SettleEvent.chainConfirmDrop], Except.error m)
      ∧ chain = ChainCallResult.err cm) ∨
    (∃ effs db1 tx rw logs, finalizeDropMilestone env db session pd sig chain
        = ([SettleEvent.chainConfirmDrop,
            SettleEvent.dbTx (DbEffect.proofInsert :: DbEffect.shipmentUpdate ::
              DbEffect.orderUpdate :: effs)],
           Except.ok (db1, tx, rw))
      ∧ chain = ChainCallResult.ok tx logs) := by
  simp only [finalizeDropMilestone]
  repeat' split
  all_goals first
    | exact Or.inl ⟨_, rfl⟩
    | exact Or.inr (Or.inl ⟨_, _, rfl, rfl⟩)
    | exact Or.inr (Or.inr ⟨_, _, _, _, _, rfl, rfl⟩)

/-- C1: when the on-chain call fails, the completion `POST` performs no
relational mutation (the whole store — shipments, orders, proofs,
payments, sessions, magic links — is returned unchanged, so the session
is still `PENDING_*` and `usedAt` still null), the caller gets an error
(never `ok`), no relational transaction event appears in the trace, a
retry runs against exactly the pre-settlement state (so an identical
submission with a succeeding chain call behaves as a fresh one), and —
for every chain outcome — no chain call ever follows a relational
commit. -/
theorem C1_theorem (env : SettleEnv) (db : Db) (sessionId : String)
    (token bodySignature : Option String) (msg : String) (chain : ChainCallResult) :
    (signPost env db sessionId token bodySignature (.err msg)).2.1 = db ∧
    (∀ t, (signPost env db sessionId token bodySignature (.err msg)).1 ≠ PostResult.ok t) ∧
    (∀ effs, SettleEvent.dbTx effs ∉ (signPost env db sessionId token bodySignature (.err msg)).2.2) ∧
    signPost env ((signPost env db sessionId token bodySignature (.err msg)).2.1) sessionId token
      bodySignature chain = signPost env db sessionId token bodySignature chain ∧
    chainBeforeDbCommit (signPost env db sessionId token bodySignature chain).2.2 = true := by
  have main : (signPost env db sessionId token bodySignature (.err msg)).2.1 = db ∧
      (∀ t, (signPost env db sessionId token bodySignature (.err msg)).1 ≠ PostResult.ok t) ∧
      (∀ effs, SettleEvent.dbTx effs ∉
        (signPost env db sessionId token bodySignature (.err msg)).2.2) := by
    cases hg : signPostGuards env db sessionId token bodySignature with
    | error e => simp [signPost, hg]
    | ok g =>
      by_cases hk : g.session.kind = "drop"
      · rcases finalizeDrop_cases env db g.session g.payloadData g.signature (.err msg) with
          ⟨m', hf⟩ | ⟨m', cm, hf, _⟩ | ⟨effs, db1, tx, rw', logs, hf, hchain⟩
        · simp [signPost, hg, hk, hf]
        · simp [signPost, hg, hk, hf]
        · cases hchain
      · rcases finalizePickup_cases env db g.session g.payloadData g.signature (.err msg) with
          ⟨m', hf⟩ | ⟨m', cm, hf, _⟩ | ⟨db1, tx, logs, hf, hchain⟩
        · simp [signPost, hg, hk, hf]
        · simp [signPost, hg, hk, hf]
        · cases hchain
  have ordering : chainBeforeDbCommit (signPost env db sessionId token bodySignature chain).2.2
      = true := by
    cases hg : signPostGuards env db sessionId token bodySignature with
    | error e => simp [signPost, hg, chainBeforeDbCommit]
    | ok g =>
      by_cases hk : g.session.kind = "drop"
      · rcases finalizeDrop_cases env db g.session g.payloadData g.signature chain with
          ⟨m', hf⟩ | ⟨m', cm, hf, _⟩ | ⟨effs, db1, tx, rw', logs, hf, hchain⟩ <;>
          simp [signPost, hg, hk, hf, chainBeforeDbCommit]
      · rcases finalizePickup_cases env db g.session g.payloadData g.signature chain with
          ⟨m', hf⟩ | ⟨m', cm, hf, _⟩ | ⟨db1, tx, logs, hf, hchain⟩ <;>
          simp [signPost, hg, hk, hf, chainBeforeDbCommit]
  refine ⟨main.1, main.2.1, main.2.2, ?_, ordering⟩
  rw [main.1]

/-- Concrete environment for the settlement fixtures: constant geodesic
distance 10 m, default radius 2000 m, trivially-true counterparty
signature verification, constant-shape metadata rewriting. -/
def exEnv : SettleEnv :=
  { nowMs := 1000000
    defaultRadius := 2000
    registryAddress := "0xreg"
    verifyMagicLink := fun tok =>
      if tok = "TOK" then
        some { sid := "sess-1", role := "supplier", jti := "j1", exp := 9999999 }
      else if tok = "TOKD" then
        some { sid := "sess-2", role := "buyer", jti := "j2", exp := 9999999 }
      else none
    hashToken := fun tok => tok ++ "#h"
    deriveRegistryId := fun _ => "0xSHIPHASH"
    verifySig := fun _ _ => true
    geoDist := fun _ _ _ _ => 10
    metaShipPickup := fun _ _ _ => "\x7b\x7d"
    metaOrderPickup := fun _ _ => "\x7b\x7d"
    metaShipDrop := fun _ _ _ _ _ => "\x7b\x7d"
    metaOrderDrop := fun _ _ _ _ => "\x7b\x7d"
    lineItems := fun _ => [{ skuId := some "sku1", qty := some 2 }] }

def exPayloadPickup : SessionPayload :=
  { shipmentHash := some "0xSHIPHASH", chainOrderId := some "123",
    claimedTs := some 1700000100, currentLat := some 1, currentLon := some 1,
    distanceMeters := none, radiusM := none, pickupLat := some 1, pickupLon := some 1,
    dropLat := none, dropLon := none, locationHash := some "0xLOC",
    targetDistance := some 10, metadataUri := none }

def exSessionPickup : Session :=
  { id := 1, sessionUid := "sess-1", shipmentId := "shp-1", orderId := "ord-1",
    chainOrderId := "123", kind := "pickup", courier := "0xC", supplier := "0xS",
    deadline := 9999999, status := "PENDING_SUPPLIER", courierNonce := "n1",
    supplierNonce := "n2", contextHash := "0xCTX", courierSignature := some "0xcsig",
    supplierSignature := none, payload := some exPayloadPickup }

def exMagicLinkPickup : MagicLinkRow :=
  { id := 1, tokenHash := "TOK#h", role := "supplier", jti := "j1", expiresAt := 9999999,
    usedAt := none, sessionId := 1 }

/-- A shipment already `InTransit` — the status the spec says pickup
settlement must reject. -/
def exShipmentInTransit : ShipmentRow :=
  { id := "shp-1", orderId := "ord-1", shipmentNo := 7, supplier := "0xS", buyer := "0xB",
    assignedCourier := some "0xC", pickupLat := some 1, pickupLon := some 1,
    dropLat := some 2, dropLon := some 2, status := "InTransit", pickedUpAt := none,
    deliveredAt := none, metadataRaw := none }

def exOrder : OrderRow :=
  { id := "ord-1", buyer := "0xB", supplier := "0xS", status := "Funded",
    completedAt := none, metadataRaw := none }

def exDbPickup : Db :=
  { sessions := [exSessionPickup], magicLinks := [exMagicLinkPickup],
    shipments := [exShipmentInTransit], orders := [exOrder], proofs := [],
    payments := [], products := [] }

def exPayloadDrop : SessionPayload :=
  { shipmentHash := some "0xSHIPHASH", chainOrderId := some "123",
    claimedTs := some 1700000100, currentLat := some 2, currentLon := some 2,
    distanceMeters := some 1000, radiusM := none, pickupLat := some 1, pickupLon := some 1,
    dropLat := some 2, dropLon := some 2, locationHash := some "0xLOC",
    targetDistance := some 10, metadataUri := none }

def exSessionDrop : Session :=
  { id := 2, sessionUid := "sess-2", shipmentId := "shp-1", orderId := "ord-1",
    chainOrderId := "123", kind := "drop", courier := "0xC", supplier := "0xB",
    deadline := 9999999, status := "PENDING_BUYER", courierNonce := "n3",
    supplierNonce := "n4", contextHash := "0xCTX", courierSignature := some "0xcsig",
    supplierSignature := none, payload := some exPayloadDrop }

def exMagicLinkDrop : MagicLinkRow :=
  { id := 2, tokenHash := "TOKD#h", role := "buyer", jti := "j2", expiresAt := 9999999,
    usedAt := none, sessionId := 2 }

def exPayment : PaymentRow :=
  { id := 1, orderId := "ord-1", payer := "0xB", payee := "0xS", status := "Escrowed",
    releaseTx := none }

def exDbDrop : Db :=
  { sessions := [exSessionDrop], magicLinks := [exMagicLinkDrop],
    shipments := [exShipmentInTransit], orders := [exOrder], proofs := [],
    payments := [exPayment], products := [] }

/-- C1 witness: on the concrete drop fixture, a chain revert leaves the
store untouched, the ordering invariant holds, and the identical retry
with a succeeding chain call completes with the drop transaction hash. -/
theorem C1_witness :
    (signPost exEnv exDbDrop "sess-2" (some "TOKD") (some "0xsig")
      (ChainCallResult.err "revert")).2.1 = exDbDrop ∧
    chainBeforeDbCommit (signPost exEnv exDbDrop "sess-2" (some "TOKD") (some "0xsig")
      (ChainCallResult.ok "0xTX" [])).2.2 = true ∧
    (signPost exEnv exDbDrop "sess-2" (some "TOKD") (some "0xsig")
      (ChainCallResult.ok "0xTX" [])).1 = PostResult.ok (some "0xTX") := by
  have h := C1_theorem exEnv exDbDrop "sess-2" (some "TOKD") (some "0xsig") "revert"
    (ChainCallResult.ok "0xTX" [])
  exact ⟨h.1, h.2.2.2.2, by decide⟩

/-- C4 counterexample: a successful pickup completion on the concrete
fixture commits in TWO relational transactions — proof insert, shipment
update and order update in one, session `COMPLETED` and magic-link
`usedAt` in a separate later one — and neither transaction contains all
five effects (the first lacks `sessionCompleted`, the second lacks
`proofInsert`), refuting the single-transaction claim. -/
theorem C4_counterexample :
    (signPost exEnv exDbPickup "sess-1" (some "TOK") (some "0xsig")
        (ChainCallResult.ok "0xTX" [])).1 = PostResult.ok none ∧
    (signPost exEnv exDbPickup "sess-1" (some "TOK") (some "0xsig")
        (ChainCallResult.ok "0xTX" [])).2.2
      = [SettleEvent.chainConfirmPickup,
         SettleEvent.dbTx [DbEffect.proofInsert, DbEffect.shipmentUpdate, DbEffect.orderUpdate],
         SettleEvent.dbTx [DbEffect.sessionCompleted, DbEffect.magicLinkUsed]] ∧
    DbEffect.sessionCompleted ∉
      [DbEffect.proofInsert, DbEffect.shipmentUpdate, DbEffect.orderUpdate] ∧
    DbEffect.proofInsert ∉ [DbEffect.sessionCompleted, DbEffect.magicLinkUsed] := by
  decide

/-- C4 amended: every successful pickup completion commits exactly this
event sequence: the chain call, then one relational transaction holding
the proof insert, shipment update and order update, then a second,
separate relational transaction marking the session `COMPLETED` and the
magic link used. -/
theorem C4_theorem (env : SettleEnv) (db : Db) (sessionId : String)
    (token bodySignature : Option String) (chain : ChainCallResult)
    (h : (signPost env db sessionId token bodySignature chain).1 = PostResult.ok none) :
    (signPost env db sessionId token bodySignature chain).2.2
      = [SettleEvent.chainConfirmPickup,
         SettleEvent.dbTx [DbEffect.proofInsert, DbEffect.shipmentUpdate, DbEffect.orderUpdate],
         SettleEvent.dbTx [DbEffect.sessionCompleted, DbEffect.magicLinkUsed]] := by
  cases hg : signPostGuards env db sessionId token bodySignature with
  | error e => simp [signPost, hg] at h
  | ok g =>
    by_cases hk : g.session.kind = "drop"
    · rcases finalizeDrop_cases env db g.session g.payloadData g.signature chain with
        ⟨m', hf⟩ | ⟨m', cm, hf, _⟩ | ⟨effs, db1, tx, rw', logs, hf, _⟩ <;>
        simp [signPost, hg, hk, hf] at h
    · rcases finalizePickup_cases env db g.session g.payloadData g.signature chain with
        ⟨m', hf⟩ | ⟨m', cm, hf, _⟩ | ⟨db1, tx, logs, hf, _⟩
      · simp [signPost, hg, hk, hf] at h
      · simp [signPost, hg, hk, hf] at h
      · simp [signPost, hg, hk, hf]

/-- C4 witness: the amended theorem applied to the concrete pickup run. -/
theorem C4_witness :
    (signPost exEnv exDbPickup "sess-1" (some "TOK") (some "0xsig")
        (ChainCallResult.ok "0xTX" [])).2.2
      = [SettleEvent.chainConfirmPickup,
         SettleEvent.dbTx [DbEffect.proofInsert, DbEffect.shipmentUpdate, DbEffect.orderUpdate],
         SettleEvent.dbTx [DbEffect.sessionCompleted, DbEffect.magicLinkUsed]] :=
  C4_theorem exEnv exDbPickup "sess-1" (some "TOK") (some "0xsig")
    (ChainCallResult.ok "0xTX" []) (by decide)

/-- C6 counterexample: the stored shipment is `InTransit`, not `Created`,
yet the pickup completion succeeds end-to-end and the on-chain
`confirmPickup` call is made — the settlement never checks
`shipment.status`. -/
theorem C6_counterexample :
    exShipmentInTransit.status = "InTransit" ∧
    exShipmentInTransit.status ≠ "Created" ∧
    (signPost exEnv exDbPickup "sess-1" (some "TOK") (some "0xsig")
        (ChainCallResult.ok "0xTX" [])).1 = PostResult.ok none ∧
    SettleEvent.chainConfirmPickup ∈
      (signPost exEnv exDbPickup "sess-1" (some "TOK") (some "0xsig")
        (ChainCallResult.ok "0xTX" [])).2.2 := by
  decide

/-- C6 amended: `finalizePickupMilestone` asserts shipment and order
existence, a positive claimed timestamp, presence of the location and
shipment hashes, the registry-id match, a parsable chain order id and a
non-empty courier signature — but nothing about `shipment.status`: for a
found shipment of ANY status, once those guards hold the on-chain
`confirmPickup` call is submitted. -/
theorem C6_theorem (env : SettleEnv) (db : Db) (session : Session) (pd : SessionPayload)
    (sig : String) (chain : ChainCallResult) (shipment : ShipmentRow) (order : OrderRow)
    (hsig : ¬ jsTrim sig = "")
    (hship : db.shipments.find? (fun s => s.id = session.shipmentId) = some shipment)
    (horder : db.orders.find? (fun o => o.id = session.orderId) = some order)
    (hts : 0 < pd.claimedTs.getD ((jsFloor (env.nowMs / 1000) : Int) : ℚ))
    (lh : String) (hlh : pd.locationHash = some lh)
    (sh : String) (hsh : pd.shipmentHash = some sh)
    (hshLow : asciiLower sh = asciiLower (env.deriveRegistryId session.shipmentId))
    (v : Int) (hv : parseChainOrderId pd.chainOrderId = Except.ok v)
    (hcsig : strFalsy (session.courierSignature.map jsTrim) = false) :
    SettleEvent.chainConfirmPickup ∈ (finalizePickupMilestone env db session pd sig chain).1 := by
  simp only [finalizePickupMilestone, hship, horder, hlh, hsh, hv]
  rw [if_neg hsig, if_neg (by simpa using hts), if_neg (by simp [hshLow]),
    if_neg (by simp [hcsig])]
  cases chain <;> simp

/-- C6 witness: the amended theorem applied to the `InTransit` fixture. -/
theorem C6_witness :
    SettleEvent.chainConfirmPickup ∈
      (finalizePickupMilestone exEnv exDbPickup exSessionPickup exPayloadPickup "0xsig"
        (ChainCallResult.ok "0xTX" [])).1 :=
  C6_theorem exEnv exDbPickup exSessionPickup exPayloadPickup "0xsig"
    (ChainCallResult.ok "0xTX" []) exShipmentInTransit exOrder (by decide) (by decide)
    (by decide) (by decide) "0xLOC" (by decide) "0xSHIPHASH" (by decide) (by decide)
    123 (by rfl) (by decide)

/-! ## §4.4 Session creation
(src/app/api/signing-sessions/[sessionId]/sign/route.ts, lines 272-542)

The creation `POST` reads only the shipment table before inserting one
`SigningSession` and one `MagicLink` row.  Randomness (session uid,
nonces, jti), the clock-derived deadline, EIP-712 building and token
minting are environment inputs. -/

/-- JS falsiness of an optional number: `null`/`undefined`, `NaN` and 0. -/
def numFalsy : Option ℚ → Bool
  | none => true
  | some x => x = 0

structure CreateBody where
  shipmentId : Option String
  shipmentHash : Option String
  chainOrderId : Option String
  claimedTs : Option ℚ
  currentLat : Option ℚ
  currentLon : Option ℚ
  locationHash : Option String
  courierSignature : Option String
  radiusM : Option ℚ
  notes : Option String
  kind : Option String
  distanceMeters : Option ℚ
  dropLat : Option ℚ
  dropLon : Option ℚ
deriving DecidableEq

structure CreateEnv where
  nowMs : ℚ
  defaultRadius : ℚ
  /-- `Date.now() + PICKUP_SIGNATURE_TTL_MINUTES · 60 · 1000`. -/
  deadlineMs : ℚ
  /-- `Math.floor(deadline.getTime() / 1000)`, the token `exp`. -/
  deadlineSec : ℚ
  /-- `getUserAddress()` (lower-cased by the auth layer). -/
  courier : String
  /-- `ethers.getAddress`; `none` models a throw on a malformed address. -/
  getAddress : String → Option String
  verifySig : String → String → Bool
  geoDist : ℚ → ℚ → ℚ → ℚ → ℚ
  hashToken : String → String
  mintToken : TokenPayloadView → String
  /-- `legacyTypedData.locationHash` recomputed by the EIP-712 builder. -/
  builtLocationHash : String
  newSessionUid : String
  newCourierNonce : String
  newSupplierNonce : String
  newJti : String
  newSessionRowId : Nat
  newMagicLinkRowId : Nat

structure NewSessionData where
  session : Session
  magicLink : MagicLinkRow
  role : String
  kind : String
deriving DecidableEq

/-- Builds the rows the route inserts on success. -/
def mkNewSessionData (env : CreateEnv) (shipment : ShipmentRow)
    (chainOrderId normalizedCourier counterparty kindInput courierSignature : String)
    (body : CreateBody) (radiusMeters : ℚ) (sessionDistanceMeters : Option ℚ)
    (targetDistance : Option ℚ) : NewSessionData :=
  let statusLabel := if kindInput = "pickup" then "PENDING_SUPPLIER" else "PENDING_BUYER"
  let role := if kindInput = "pickup" then "supplier" else "buyer"
  let payload : SessionPayload :=
    { shipmentHash := body.shipmentHash, chainOrderId := body.chainOrderId,
      claimedTs := body.claimedTs, currentLat := body.currentLat,
      currentLon := body.currentLon, distanceMeters := sessionDistanceMeters,
      radiusM := some radiusMeters, pickupLat := shipment.pickupLat,
      pickupLon := shipment.pickupLon, dropLat := shipment.dropLat,
      dropLon := shipment.dropLon, locationHash := some env.builtLocationHash,
      targetDistance := targetDistance, metadataUri := none }
  { session :=
      { id := env.newSessionRowId, sessionUid := env.newSessionUid,
        shipmentId := shipment.id, orderId := shipment.orderId,
        chainOrderId := chainOrderId, kind := kindInput, courier := normalizedCourier,
        supplier := counterparty, deadline := env.deadlineMs, status := statusLabel,
        courierNonce := env.newCourierNonce, supplierNonce := env.newSupplierNonce,
        contextHash := env.builtLocationHash, courierSignature := some courierSignature,
        supplierSignature := none, payload := some payload }
    magicLink :=
      { id := env.newMagicLinkRowId,
        tokenHash := env.hashToken (env.mintToken
          { sid := env.newSessionUid, role := role, jti := env.newJti,
            exp := env.deadlineSec }),
        role := role, jti := env.newJti, expiresAt := env.deadlineMs,
        usedAt := none, sessionId := env.newSessionRowId }
    role := role
    kind := kindInput }

/-- The three guards of the creation route's drop branch, in source
order: geofence, the `|distanceMeters − plannedDistance| ≤ 5` bound, and
the courier signature; `some e` is the 4xx rejection, `none` lets the
insert proceed. -/
def createDropGuards (env : CreateEnv) (plannedDistance : Int) (distanceMeters : ℚ)
    (dropDistance radiusMeters : ℚ) (normalizedCourier courierSignature : String) :
    Option (Nat × String) :=
  if radiusRejects dropDistance radiusMeters then
    some (400, "Courier location outside drop radius")
  else if 5 < |distanceMeters - (plannedDistance : ℚ)| then
    some (400, "Distance mismatch")
  else if ¬ env.verifySig normalizedCourier courierSignature then
    some (400, "Courier signature invalid")
  else none

/-- Guard chain of the creation `POST`.  It reads only the shipment
table — in particular it performs NO lookup of existing signing
sessions. -/
def createSessionChecks (env : CreateEnv) (shipments : List ShipmentRow)
    (body : CreateBody) : Except (Nat × String) NewSessionData :=
  match body.shipmentId with
  | none => .error (400, "shipmentId required")
  | some shipmentId =>
    match shipments.find? (fun s => s.id = shipmentId) with
    | none => .error (404, "Shipment not found")
    | some shipment =>
      if strFalsy shipment.assignedCourier then
        .error (403, "Courier must be assigned before creating session")
      else
        match env.getAddress (shipment.assignedCourier.getD ""),
            env.getAddress shipment.supplier with
        | some normalizedCourier, some normalizedSupplier =>
          if asciiLower normalizedCourier ≠ asciiLower env.courier then
            .error (403, "Not assigned to this shipment")
          else if numFalsy shipment.pickupLat ∨ numFalsy shipment.pickupLon then
            .error (400, "Shipment missing pickup coordinates")
          else
            (match body.currentLat, body.currentLon with
             | some currentLat, some currentLon =>
               (match body.chainOrderId with
                | none => .error (400, "chainOrderId required")
                | some chainOrderId =>
                  if jsTrim chainOrderId = "" then .error (400, "chainOrderId required")
                  else
                    match body.shipmentHash, body.locationHash with
                    | some _shipmentHash, some _locationHash =>
                      (match body.claimedTs with
                       | none => .error (400, "claimedTs required")
                       | some _claimedTs =>
                         match body.courierSignature with
                         | none => .error (400, "courierSignature required")
                         | some courierSignature =>
                           if jsTrim courierSignature = "" then
                             .error (400, "courierSignature required")
                           else
                             let kindInput := (body.kind.map asciiLower).getD "pickup"
                             if ¬ (kindInput = "pickup" ∨ kindInput = "drop") then
                               .error (400, "Invalid signing session kind")
                             else
                               let radiusMeters :=
                                 match body.radiusM.map (fun r => max r 0) with
                                 | some r => if 0 < r then r else env.defaultRadius
                                 | none => env.defaultRadius
                               if ¬ (0 < radiusMeters) then
                                 .error (500, "Unable to resolve geofence radius")
                               else if kindInput = "pickup" then
                                 let pickupDistance := env.geoDist (shipment.pickupLat.getD 0)
                                   (shipment.pickupLon.getD 0) currentLat currentLon
                                 if radiusRejects pickupDistance radiusMeters then
                                   .error (400, "Courier location outside pickup radius")
                                 else if ¬ env.verifySig normalizedCourier courierSignature then
                                   .error (400, "Courier signature invalid")
                                 else
                                   .ok (mkNewSessionData env shipment chainOrderId
                                     normalizedCourier normalizedSupplier kindInput
                                     courierSignature body radiusMeters none
                                     (some pickupDistance))
                               else
                                 if ¬ (shipment.status = "InTransit" ∨
                                     shipment.status = "Delivered") then
                                   .error (400, "Shipment not ready for drop")
                                 else
                                   match shipment.dropLat, shipment.dropLon,
                                       shipment.pickupLat, shipment.pickupLon with
                                   | some dLat, some dLon, some pLat, some pLon =>
                                     (match env.getAddress shipment.buyer with
                                      | none => .error (500, "Invalid participant address")
                                      | some normalizedBuyer =>
                                        let plannedDistance : Int :=
                                          jsRound (env.geoDist pLat pLon dLat dLon)
                                        let distanceMeters : ℚ :=
                                          body.distanceMeters.getD (plannedDistance : ℚ)
                                        let dropDistance :=
                                          env.geoDist dLat dLon currentLat currentLon
                                        match createDropGuards env plannedDistance
                                            distanceMeters dropDistance radiusMeters
                                            normalizedCourier courierSignature with
                                        | some e => .error e
                                        | none =>
                                          .ok (mkNewSessionData env shipment chainOrderId
                                            normalizedCourier normalizedBuyer kindInput
                                            courierSignature body radiusMeters
                                            (some distanceMeters) (some dropDistance)))
                                   | _, _, _, _ =>
                                     .error (400, "Shipment missing drop coordinates"))
                    | _, _ => .error (400, "shipmentHash and locationHash required"))
                | _, _ => .error (400, "Courier coordinates required"))
        | _, _ => .error (500, "Invalid participant address")

inductive CreateResult
  | ok (sessionId : String) (role : String) (kind : String)
  | httpError (status : Nat) (message : String)
deriving DecidableEq

/-- The creation `POST`: on passing checks, insert the session row, then
the magic-link row (two separate inserts, no conflict check against
existing sessions). -/
def createSession (env : CreateEnv) (db : Db) (body : CreateBody) : CreateResult × Db :=
  match createSessionChecks env db.shipments body with
  | .error e => (.httpError e.1 e.2, db)
  | .ok data =>
      (.ok data.session.sessionUid data.role data.kind,
       { db with sessions := db.sessions ++ [data.session],
                 magicLinks := db.magicLinks ++ [data.magicLink] })

/-! ## Claim C5: session conflict handling -/

def exCreateEnv : CreateEnv :=
  { nowMs := 1000000, defaultRadius := 2000, deadlineMs := 1600000, deadlineSec := 1600,
    courier := "0xc", getAddress := fun s => some s, verifySig := fun _ _ => true,
    geoDist := fun _ _ _ _ => 10, hashToken := fun t => t ++ "#h",
    mintToken := fun _ => "NEWTOK", builtLocationHash := "0xLOC2",
    newSessionUid := "sess-new", newCourierNonce := "nc", newSupplierNonce := "ns",
    newJti := "jn", newSessionRowId := 99, newMagicLinkRowId := 99 }

def exCreateBody : CreateBody :=
  { shipmentId := some "shp-1", shipmentHash := some "0xSHIPHASH",
    chainOrderId := some "123", claimedTs := some 1700000100, currentLat := some 1,
    currentLon := some 1, locationHash := some "0xLOC", courierSignature := some "0xcsig",
    radiusM := none, notes := none, kind := some "pickup", distanceMeters := none,
    dropLat := none, dropLon := none }

/-- C5 counterexample: `exDbPickup` already holds a non-terminal
(`PENDING_SUPPLIER`) session for `(shp-1, pickup)`, yet an equal create
request succeeds — no `SESSION_CONFLICT` — and afterwards TWO `PENDING_*`
sessions exist for that `(shipment, kind)`. -/
theorem C5_counterexample :
    (∃ s ∈ exDbPickup.sessions, s.shipmentId = "shp-1" ∧ s.kind = "pickup" ∧
      s.status = "PENDING_SUPPLIER") ∧
    (createSession exCreateEnv exDbPickup exCreateBody).1
      = CreateResult.ok "sess-new" "supplier" "pickup" ∧
    ((createSession exCreateEnv exDbPickup exCreateBody).2.sessions.filter
      (fun s => s.shipmentId = "shp-1" ∧ s.kind = "pickup" ∧
        (s.status = "PENDING_SUPPLIER" ∨ s.status = "PENDING_BUYER"))).length = 2 := by
  decide

/-- C5 amended: `createSession` consults no existing signing sessions:
its result is identical whatever the session table holds, and a
successful request always appends one new session row — so a create
arriving while a non-terminal session exists for the same
`(shipment, kind)` succeeds and a second `PENDING_*` row appears. -/
theorem C5_theorem (env : CreateEnv) (db : Db) (body : CreateBody) (ss : List Session) :
    (createSession env { db with sessions := ss } body).1
      = (createSession env db body).1 ∧
    (∀ data, createSessionChecks env db.shipments body = Except.ok data →
      (createSession env db body).2.sessions = db.sessions ++ [data.session] ∧
      (createSession env { db with sessions := ss } body).2.sessions
        = ss ++ [data.session]) := by
  constructor
  · cases h : createSessionChecks env db.shipments body <;> simp [createSession, h]
  · intro data h
    constructor <;> simp [createSession, h]

/-- C5 witness: the amended theorem instantiated on the concrete fixture
(the pre-existing `PENDING_SUPPLIER` row plus the appended new row). -/
theorem C5_witness :
    (createSession exCreateEnv exDbPickup exCreateBody).2.sessions
      = exDbPickup.sessions ++
        [((createSessionChecks exCreateEnv exDbPickup.shipments exCreateBody).toOption.getD
            (mkNewSessionData exCreateEnv exShipmentInTransit "123" "0xC" "0xS" "pickup"
              "0xcsig" exCreateBody 2000 none (some 10))).session] := by
  have h := ( C5_theorem exCreateEnv exDbPickup exCreateBody []).2
  exact (h _ (by rfl)).1


/-! ## Claim C7: the ±5 m distance bound -/

/-- C7 counterexample: the stored `distanceMeters` is 1000 while the
recomputed planned distance is 10 — violating the ±5 bound by far — yet
the drop completion succeeds end-to-end and `confirmDrop` is submitted:
`finalizeDropMilestone` recomputes `plannedDistance` but never asserts
the bound. -/
theorem C7_counterexample :
    exPayloadDrop.distanceMeters = some 1000 ∧
    jsRound (exEnv.geoDist 1 1 2 2) = 10 ∧
    (5 : Int) < 1000 - 10 ∧
    (signPost exEnv exDbDrop "sess-2" (some "TOKD") (some "0xsig")
        (ChainCallResult.ok "0xTX" [])).1 = PostResult.ok (some "0xTX") ∧
    SettleEvent.chainConfirmDrop ∈
      (signPost exEnv exDbDrop "sess-2" (some "TOKD") (some "0xsig")
        (ChainCallResult.ok "0xTX" [])).2.2 := by
  decide

/-- C7 amended: under the guards `finalizeDropMilestone` does enforce
(shipment and order existence, positive timestamp, stored coordinates,
hash presence and match, parsable order id, courier signature), the
on-chain `confirmDrop` call is submitted for EVERY stored
`distanceMeters` value — the recomputed `plannedDistance` is never
compared against it.  The ±5 bound lives only in the creation route's
drop branch: inside the geofence, a deviation above 5 is rejected with
`Distance mismatch`, and a request passing the drop guards satisfies
`|distanceMeters − plannedDistance| ≤ 5`. -/
theorem C7_theorem (env : SettleEnv) (db : Db) (session : Session) (pd : SessionPayload)
    (sig : String) (chain : ChainCallResult) (shipment : ShipmentRow) (order : OrderRow)
    (hsig : ¬ jsTrim sig = "")
    (hship : db.shipments.find? (fun s => s.id = session.shipmentId) = some shipment)
    (horder : db.orders.find? (fun o => o.id = session.orderId) = some order)
    (hts : 0 < pd.claimedTs.getD ((jsFloor (env.nowMs / 1000) : Int) : ℚ))
    (pLat pLon dLat dLon : ℚ)
    (hpLat : shipment.pickupLat = some pLat) (hpLon : shipment.pickupLon = some pLon)
    (hdLat : shipment.dropLat = some dLat) (hdLon : shipment.dropLon = some dLon)
    (sh lh : String) (hsh : pd.shipmentHash = some sh) (hlh : pd.locationHash = some lh)
    (hshLow : asciiLower sh = asciiLower (env.deriveRegistryId session.shipmentId))
    (v : Int) (hv : parseChainOrderId pd.chainOrderId = Except.ok v)
    (hcsig : strFalsy (session.courierSignature.map jsTrim) = false) :
    (∀ dm : Option ℚ,
      SettleEvent.chainConfirmDrop ∈
        (finalizeDropMilestone env db session { pd with distanceMeters := dm }
          sig chain).1) ∧
    (∀ (cenv : CreateEnv) (planned : Int) (dm dropDist radius : ℚ) (nc cs : String),
      radiusRejects dropDist radius = false →
      5 < |dm - (planned : ℚ)| →
      createDropGuards cenv planned dm dropDist radius nc cs
        = some (400, "Distance mismatch")) ∧
    (∀ (cenv : CreateEnv) (planned : Int) (dm dropDist radius : ℚ) (nc cs : String),
      createDropGuards cenv planned dm dropDist radius nc cs = none →
      |dm - (planned : ℚ)| ≤ 5) := by
  refine ⟨?_, ?_, ?_⟩
  · intro dm
    simp only [finalizeDropMilestone, hship, horder, hpLat, hpLon, hdLat, hdLon, hsh, hlh, hv]
    rw [if_neg hsig, if_neg (by simpa using hts), if_neg (by simp [hshLow]),
      if_neg (by simp [hcsig])]
    cases chain <;> simp
  · intro cenv planned dm dropDist radius nc cs hrad hbound
    rw [createDropGuards, if_neg (by simp [hrad]), if_pos hbound]
  · intro cenv planned dm dropDist radius nc cs h
    rw [createDropGuards] at h
    split at h
    · cases h
    · split at h
      · cases h
      next hb => exact le_of_not_lt hb

/-- C7 witness: the amended theorem at the concrete fixture — the drop
completion submits `confirmDrop` with stored distance 1000 against a
planned 10, while the creation-route drop guards reject the same
deviation with `Distance mismatch`. -/
theorem C7_witness :
    SettleEvent.chainConfirmDrop ∈
      (finalizeDropMilestone exEnv exDbDrop exSessionDrop
        { exPayloadDrop with distanceMeters := some 1000 } "0xsig"
        (ChainCallResult.ok "0xTX" [])).1 ∧
    createDropGuards exCreateEnv 10 1000 10 2000 "0xC" "0xcsig"
      = some (400, "Distance mismatch") := by
  have h := C7_theorem exEnv exDbDrop exSessionDrop exPayloadDrop "0xsig"
    (ChainCallResult.ok "0xTX" []) exShipmentInTransit exOrder (by decide) (by decide)
    (by decide) (by decide) 1 1 2 2 (by rfl) (by rfl) (by rfl) (by rfl)
    "0xSHIPHASH" "0xLOC" (by rfl) (by rfl) (by decide) 123 (by rfl) (by decide)
  exact ⟨h.1 (some 1000),
    h.2.1 exCreateEnv 10 1000 10 2000 "0xC" "0xcsig" (by decide) (by norm_num)⟩

/-! ## §4.5 Magic-link tokens (src/lib/signing-session.ts)

JS strings are modelled as `List Char`; UTF-8 bytes as `List Nat`
(every payload character is ASCII, where byte = code point).
`createHmac("sha256", secret).update(body).digest("base64url")` is an
external primitive: it enters as a function parameter `hmac`, the same
function on both the create and the verify side (the secret determines
it).  base64url, JSON serialisation of the fixed payload shape, and the
dot-splitting of the token are implemented concretely below. -/

/-- Big-endian 6-bit groups of a byte stream (base64 without padding,
as `base64url` encodes). -/
def toSextets : List Nat → List Nat
  | [] => []
  | [a] => [a / 4, a % 4 * 16]
  | [a, b] => [a / 4, a % 4 * 16 + b / 16, b % 16 * 4]
  | a :: b :: c :: rest =>
      a / 4 :: (a % 4 * 16 + b / 16) :: (b % 16 * 4 + c / 64) :: c % 64 :: toSextets rest

/-- Reassemble bytes from 6-bit groups (base64url decode, ignoring the
impossible 1-mod-4 length). -/
def fromSextets : List Nat → List Nat
  | s1 :: s2 :: s3 :: s4 :: rest =>
      (s1 * 4 + s2 / 16) :: (s2 % 16 * 16 + s3 / 4) :: (s3 % 4 * 64 + s4) :: fromSextets rest
  | [s1, s2] => [s1 * 4 + s2 / 16]
  | [s1, s2, s3] => [s1 * 4 + s2 / 16, s2 % 16 * 16 + s3 / 4]
  | _ => []

theorem fromSextets_toSextets : ∀ l : List Nat, (∀ x ∈ l, x < 256) →
    fromSextets (toSextets l) = l := by
  intro l
  induction l using toSextets.induct with
  | case1 => intro _; rfl
  | case2 a =>
      intro h
      have ha := h a (by simp)
      simp only [toSextets, fromSextets, List.cons.injEq, and_true]
      omega
  | case3 a b =>
      intro h
      have ha := h a (by simp)
      have hb := h b (by simp)
      simp only [toSextets, fromSextets, List.cons.injEq, and_true]
      constructor
      · omega
      · omega
  | case4 a b c rest ih =>
      intro h
      have ha := h a (by simp)
      have hb := h b (by simp)
      have hc := h c (by simp)
      have hrest : ∀ x ∈ rest, x < 256 := fun x hx => h x (by simp [hx])
      simp only [toSextets, fromSextets, List.cons.injEq]
      exact ⟨by omega, by omega, by omega, ih hrest⟩

theorem toSextets_lt : ∀ l : List Nat, (∀ x ∈ l, x < 256) →
    ∀ y ∈ toSextets l, y < 64 := by
  intro l
  induction l using toSextets.induct with
  | case1 => intro _ y hy; cases hy
  | case2 a =>
      intro h y hy
      have ha := h a (by simp)
      simp only [toSextets, List.mem_cons, List.not_mem_nil, or_false] at hy
      rcases hy with rfl | rfl <;> omega
  | case3 a b =>
      intro h y hy
      have ha := h a (by simp)
      have hb := h b (by simp)
      simp only [toSextets, List.mem_cons, List.not_mem_nil, or_false] at hy
      rcases hy with rfl | rfl | rfl <;> omega
  | case4 a b c rest ih =>
      intro h y hy
      have ha := h a (by simp)
      have hb := h b (by simp)
      have hc := h c (by simp)
      have hrest : ∀ x ∈ rest, x < 256 := fun x hx => h x (by simp [hx])
      simp only [toSextets, List.mem_cons] at hy
      rcases hy with rfl | rfl | rfl | rfl | hy
      · omega
      · omega
      · omega
      · omega
      · exact ih hrest y hy

/-- The base64url alphabet: `A-Z a-z 0-9 - _`. -/
def b64Char (s : Nat) : Char :=
  if s < 26 then Char.ofNat (65 + s)
  else if s < 52 then Char.ofNat (97 + (s - 26))
  else if s < 62 then Char.ofNat (48 + (s - 52))
  else if s = 62 then '-'
  else '_'

def b64Val (c : Char) : Nat :=
  if 'A' ≤ c ∧ c ≤ 'Z' then c.toNat - 65
  else if 'a' ≤ c ∧ c ≤ 'z' then c.toNat - 97 + 26
  else if '0' ≤ c ∧ c ≤ '9' then c.toNat - 48 + 52
  else if c = '-' then 62
  else 63

theorem b64Val_b64Char : ∀ s : Nat, s < 64 → b64Val (b64Char s) = s := by decide

theorem b64Char_ne_dot : ∀ s : Nat, s < 64 → b64Char s ≠ '.' := by decide

def b64e (bs : List Nat) : List Char := (toSextets bs).map b64Char

def b64d (cs : List Char) : List Nat := fromSextets (cs.map b64Val)

theorem map_fix {α : Type} (f : α → α) :
    ∀ l : List α, (∀ x ∈ l, f x = x) → l.map f = l := by
  intro l
  induction l with
  | nil => intro _; rfl
  | cons a t ih =>
      intro h
      simp only [List.map_cons, h a (by simp), List.cons.injEq, true_and]
      exact ih (fun x hx => h x (by simp [hx]))

theorem b64d_b64e (bs : List Nat) (h : ∀ x ∈ bs, x < 256) : b64d (b64e bs) = bs := by
  rw [b64e, b64d, List.map_map]
  have hmap : (toSextets bs).map (b64Val ∘ b64Char) = toSextets bs := by
    apply map_fix
    intro x hx
    exact b64Val_b64Char x (toSextets_lt bs h x hx)
  rw [hmap, fromSextets_toSextets bs h]

theorem b64e_no_dot (bs : List Nat) (h : ∀ x ∈ bs, x < 256) : '.' ∉ b64e bs := by
  rw [b64e]
  intro hmem
  rcases List.mem_map.mp hmem with ⟨s, hs, heq⟩
  exact b64Char_ne_dot s (toSextets_lt bs h s hs) heq

/-- Decimal digit bytes of a natural number (ASCII), most significant
first, as `JSON.stringify` renders an integer `Number`. -/
def natDigitsB (n : Nat) : List Nat :=
  if n < 10 then [48 + n]
  else natDigitsB (n / 10) ++ [48 + n % 10]
termination_by n
decreasing_by exact Nat.div_lt_self (by omega) (by omega)

def isDigitB (b : Nat) : Bool := 48 ≤ b ∧ b ≤ 57

def parseNatAux : List Nat → Nat → Nat × List Nat
  | b :: bs, acc => if isDigitB b then parseNatAux bs (acc * 10 + (b - 48)) else (acc, b :: bs)
  | [], acc => (acc, [])

/-- Parse a leading run of decimal digits (at least one). -/
def parseNatB (bs : List Nat) : Option (Nat × List Nat) :=
  match bs with
  | b :: _ => if isDigitB b then some (parseNatAux bs 0) else none
  | [] => none

theorem natDigitsB_digits (n : Nat) : ∀ b ∈ natDigitsB n, isDigitB b = true := by
  induction n using Nat.strong_induction_on with
  | _ n ih =>
    intro b hb
    rw [natDigitsB] at hb
    by_cases h : n < 10
    · rw [if_pos h] at hb
      simp only [List.mem_singleton] at hb
      subst hb
      simp [isDigitB]
      omega
    · rw [if_neg h] at hb
      rcases List.mem_append.mp hb with hb | hb
      · exact ih (n / 10) (Nat.div_lt_self (by omega) (by omega)) b hb
      · simp only [List.mem_singleton] at hb
        subst hb
        simp [isDigitB]
        omega

theorem natDigitsB_ne_nil (n : Nat) : natDigitsB n ≠ [] := by
  rw [natDigitsB]
  by_cases h : n < 10
  · simp [h]
  · rw [if_neg h]
    simp

theorem parseNatAux_digits (ds : List Nat) :
    ∀ (rest : List Nat) (acc : Nat), (∀ b ∈ ds, isDigitB b = true) →
    parseNatAux (ds ++ rest) acc
      = parseNatAux rest (ds.foldl (fun a b => a * 10 + (b - 48)) acc) := by
  induction ds with
  | nil => intro rest acc _; rfl
  | cons d t ih =>
      intro rest acc h
      have hd := h d (by simp)
      simp only [List.cons_append, parseNatAux, hd, if_true, List.foldl_cons]
      exact ih rest (acc * 10 + (d - 48)) (fun b hb => h b (by simp [hb]))

/-- `10 ^ (number of decimal digits)`. -/
def pow10Len (n : Nat) : Nat :=
  if n < 10 then 10 else pow10Len (n / 10) * 10
termination_by n
decreasing_by exact Nat.div_lt_self (by omega) (by omega)

theorem foldl_natDigitsB (n : Nat) : ∀ acc : Nat,
    (natDigitsB n).foldl (fun a b => a * 10 + (b - 48)) acc = acc * pow10Len n + n := by
  induction n using Nat.strong_induction_on with
  | _ n ih =>
    intro acc
    rw [natDigitsB, pow10Len]
    by_cases h : n < 10
    · rw [if_pos h, if_pos h]
      simp only [List.foldl_cons, List.foldl_nil]
      omega
    · rw [if_neg h, if_neg h, List.foldl_append]
      rw [ih (n / 10) (Nat.div_lt_self (by omega) (by omega)) acc]
      simp only [List.foldl_cons, List.foldl_nil]
      have hmod := Nat.div_add_mod n 10
      have : 48 + n % 10 - 48 = n % 10 := by omega
      rw [this, Nat.mul_comm (acc * pow10Len (n / 10) + n / 10) 10]
      ring_nf
      omega

theorem parseNatB_digits (n : Nat) (rest : List Nat)
    (hrest : ∀ b, rest.head? = some b → isDigitB b = false) :
    parseNatB (natDigitsB n ++ rest) = some (n, rest) := by
  have hne := natDigitsB_ne_nil n
  have hdig := natDigitsB_digits n
  obtain ⟨d, t, hds⟩ : ∃ d t, natDigitsB n = d :: t := by
    cases h : natDigitsB n with
    | nil => exact absurd h hne
    | cons d t => exact ⟨d, t, rfl⟩
  have hd : isDigitB d = true := hdig d (by rw [hds]; simp)
  have haux := parseNatAux_digits (natDigitsB n) rest 0 hdig
  rw [foldl_natDigitsB] at haux
  rw [hds, List.cons_append] at haux ⊢
  simp only [parseNatB, hd, if_true]
  rw [haux]
  simp only [Nat.zero_mul, Nat.zero_add]
  cases rest with
  | nil => rfl
  | cons r rs =>
      have hr : isDigitB r = false := hrest r rfl
      simp [parseNatAux, hr]

theorem charOfNatToNat (c : Char) : Char.ofNat c.toNat = c := by
  have hv := c.valid
  simp only [Char.ofNat, Char.toNat, dif_pos hv]
  rcases c with ⟨⟨v, hlt⟩, h⟩
  rfl

theorem charToNat_inj {a b : Char} (h : a.toNat = b.toNat) : a = b := by
  have := congrArg Char.ofNat h
  rwa [charOfNatToNat, charOfNatToNat] at this

/-- `role` union of the magic-link payload
(`"courier" | "supplier" | "buyer"`). -/
inductive SigningSessionRole
  | courier
  | supplier
  | buyer
deriving DecidableEq

def roleChars : SigningSessionRole → List Char
  | .courier => "courier".data
  | .supplier => "supplier".data
  | .buyer => "buyer".data

/-- `MagicLinkPayload`: `{sid, role, jti, exp}`. -/
structure MagicPayload where
  sid : List Char
  role : SigningSessionRole
  jti : List Char
  exp : Nat
deriving DecidableEq

/-- A character that `JSON.stringify` emits verbatim inside a string
literal and whose UTF-8 encoding is its code point: printable ASCII
other than `"` and `\`.  All sid/jti values of this code base (hex
strings) are of this shape. -/
def plainChar (c : Char) : Prop :=
  32 ≤ c.toNat ∧ c.toNat < 128 ∧ c ≠ '"' ∧ c ≠ '\\'

instance (c : Char) : Decidable (plainChar c) := by
  unfold plainChar
  infer_instance

/-- UTF-8 bytes of an ASCII character list. -/
def strB (s : List Char) : List Nat := s.map Char.toNat

theorem strB_no_quote (s : List Char) (h : ∀ c ∈ s, plainChar c) : (34 : Nat) ∉ strB s := by
  intro hmem
  rcases List.mem_map.mp hmem with ⟨c, hc, heq⟩
  have : c = '"' := charToNat_inj (by rw [heq]; rfl)
  exact ((h c hc).2.2.1) this

theorem strB_lt (s : List Char) (h : ∀ c ∈ s, plainChar c) : ∀ x ∈ strB s, x < 256 := by
  intro x hx
  rcases List.mem_map.mp hx with ⟨c, hc, heq⟩
  have := (h c hc).2.1
  omega

theorem strB_roundtrip (s : List Char) : (strB s).map Char.ofNat = s := by
  rw [strB, List.map_map]
  apply map_fix
  intro c _
  exact charOfNatToNat c

/-- Consume an expected literal byte sequence. -/
def expectLit : List Nat → List Nat → Option (List Nat)
  | [], rest => some rest
  | l :: ls, b :: bs => if b = l then expectLit ls bs else none
  | _ :: _, [] => none

theorem expectLit_append (lit rest : List Nat) : expectLit lit (lit ++ rest) = some rest := by
  induction lit with
  | nil => rfl
  | cons l ls ih => simp [expectLit, ih]

/-- Read bytes up to (excluding) the next `"` (byte 34). -/
def readUntilQuote : List Nat → List Nat × List Nat
  | [] => ([], [])
  | b :: bs =>
      if b = 34 then ([], b :: bs)
      else
        let p := readUntilQuote bs
        (b :: p.1, p.2)

theorem readUntilQuote_append (s rest : List Nat) (h : (34 : Nat) ∉ s) :
    readUntilQuote (s ++ 34 :: rest) = (s, 34 :: rest) := by
  induction s with
  | nil => rfl
  | cons b bs ih =>
      have hb : b ≠ 34 := fun hb => h (by simp [hb])
      have hbs : (34 : Nat) ∉ bs := fun hm => h (by simp [hm])
      simp [readUntilQuote, hb, ih hbs]

/-- `\x7b"sid":"` -/
def litSid : List Nat := [123, 34, 115, 105, 100, 34, 58, 34]
/-- `","role":"` -/
def litRole : List Nat := [34, 44, 34, 114, 111, 108, 101, 34, 58, 34]
/-- `","jti":"` -/
def litJti : List Nat := [34, 44, 34, 106, 116, 105, 34, 58, 34]
/-- `","exp":` -/
def litExp : List Nat := [34, 44, 34, 101, 120, 112, 34, 58]
/-- `\x7d` -/
def litEnd : List Nat := [125]

/-- UTF-8 bytes of `JSON.stringify({sid, role, jti, exp})` with the
object-literal field order of `createMagicLinkToken`'s caller. -/
def jsonBytes (p : MagicPayload) : List Nat :=
  litSid ++ (strB p.sid ++ (litRole ++ (strB (roleChars p.role) ++
    (litJti ++ (strB p.jti ++ (litExp ++ (natDigitsB p.exp ++ litEnd)))))))

def roleOfChars (cs : List Char) : Option SigningSessionRole :=
  if cs = "courier".data then some SigningSessionRole.courier
  else if cs = "supplier".data then some SigningSessionRole.supplier
  else if cs = "buyer".data then some SigningSessionRole.buyer
  else none

/-- `JSON.parse` specialised to the payload shape, fused with the
`role ∈ {courier, supplier, buyer}` check `verifyMagicLinkToken`
performs. -/
def parsePayloadBytes (bs : List Nat) : Option MagicPayload :=
  match expectLit litSid bs with
  | none => none
  | some r1 =>
    match readUntilQuote r1 with
    | (sidB, r1q) =>
      match expectLit litRole r1q with
      | none => none
      | some r2 =>
        match readUntilQuote r2 with
        | (roleB, r2q) =>
          match expectLit litJti r2q with
          | none => none
          | some r3 =>
            match readUntilQuote r3 with
            | (jtiB, r3q) =>
              match expectLit litExp r3q with
              | none => none
              | some r4 =>
                match parseNatB r4 with
                | none => none
                | some (exp, r5) =>
                  match expectLit litEnd r5 with
                  | none => none
                  | some r6 =>
                    if r6 = [] then
                      match roleOfChars (roleB.map Char.ofNat) with
                      | some role =>
                          some { sid := sidB.map Char.ofNat, role := role,
                                 jti := jtiB.map Char.ofNat, exp := exp }
                      | none => none
                    else none

theorem parse_jsonBytes (p : MagicPayload)
    (hsid : ∀ c ∈ p.sid, plainChar c) (hjti : ∀ c ∈ p.jti, plainChar c) :
    parsePayloadBytes (jsonBytes p) = some p := by
  have hrole : ∀ c ∈ roleChars p.role, plainChar c := by
    cases p.role <;> decide
  have h1 : expectLit litSid (jsonBytes p)
      = some (strB p.sid ++ (litRole ++ (strB (roleChars p.role) ++
          (litJti ++ (strB p.jti ++ (litExp ++ (natDigitsB p.exp ++ litEnd))))))) := by
    rw [jsonBytes]
    exact expectLit_append _ _
  have h2 : readUntilQuote (strB p.sid ++ (litRole ++ (strB (roleChars p.role) ++
          (litJti ++ (strB p.jti ++ (litExp ++ (natDigitsB p.exp ++ litEnd)))))))
      = (strB p.sid, litRole ++ (strB (roleChars p.role) ++
          (litJti ++ (strB p.jti ++ (litExp ++ (natDigitsB p.exp ++ litEnd)))))) :=
    readUntilQuote_append _ _ (strB_no_quote p.sid hsid)
  have h3 : expectLit litRole (litRole ++ (strB (roleChars p.role) ++
          (litJti ++ (strB p.jti ++ (litExp ++ (natDigitsB p.exp ++ litEnd))))))
      = some (strB (roleChars p.role) ++
          (litJti ++ (strB p.jti ++ (litExp ++ (natDigitsB p.exp ++ litEnd))))) :=
    expectLit_append _ _
  have h4 : readUntilQuote (strB (roleChars p.role) ++
          (litJti ++ (strB p.jti ++ (litExp ++ (natDigitsB p.exp ++ litEnd)))))
      = (strB (roleChars p.role),
          litJti ++ (strB p.jti ++ (litExp ++ (natDigitsB p.exp ++ litEnd)))) :=
    readUntilQuote_append _ _ (strB_no_quote _ hrole)
  have h5 : expectLit litJti (litJti ++ (strB p.jti ++ (litExp ++ (natDigitsB p.exp ++ litEnd))))
      = some (strB p.jti ++ (litExp ++ (natDigitsB p.exp ++ litEnd))) :=
    expectLit_append _ _
  have h6 : readUntilQuote (strB p.jti ++ (litExp ++ (natDigitsB p.exp ++ litEnd)))
      = (strB p.jti, litExp ++ (natDigitsB p.exp ++ litEnd)) :=
    readUntilQuote_append _ _ (strB_no_quote p.jti hjti)
  have h7 : expectLit litExp (litExp ++ (natDigitsB p.exp ++ litEnd))
      = some (natDigitsB p.exp ++ litEnd) :=
    expectLit_append _ _
  have h8 : parseNatB (natDigitsB p.exp ++ litEnd) = some (p.exp, litEnd) := by
    apply parseNatB_digits
    intro b hb
    have : b = 125 := by
      simp [litEnd] at hb
      omega
    subst this
    decide
  have h9 : expectLit litEnd litEnd = some [] := expectLit_append litEnd []
  have h10 : roleOfChars (roleChars p.role) = some p.role := by
    cases p.role <;> rfl
  simp only [parsePayloadBytes, h1, h2, h3, h4, h5, h6, h7, h8, h9, h10,
    if_true, strB_roundtrip]

theorem jsonBytes_lt (p : MagicPayload)
    (hsid : ∀ c ∈ p.sid, plainChar c) (hjti : ∀ c ∈ p.jti, plainChar c) :
    ∀ x ∈ jsonBytes p, x < 256 := by
  have hrole : ∀ c ∈ roleChars p.role, plainChar c := by
    cases p.role <;> decide
  have hdig : ∀ x ∈ natDigitsB p.exp, x < 256 := by
    intro x hx
    have := natDigitsB_digits p.exp x hx
    simp [isDigitB] at this
    omega
  intro x hx
  rw [jsonBytes] at hx
  simp only [List.mem_append] at hx
  rcases hx with hx | hx | hx | hx | hx | hx | hx | hx | hx
  · revert hx
    revert x
    decide
  · exact strB_lt p.sid hsid x hx
  · revert hx
    revert x
    decide
  · exact strB_lt _ hrole x hx
  · revert hx
    revert x
    decide
  · exact strB_lt p.jti hjti x hx
  · revert hx
    revert x
    decide
  · exact hdig x hx
  · revert hx
    revert x
    decide

theorem toSextets_ne_nil : ∀ (a : Nat) (l : List Nat), toSextets (a :: l) ≠ []
  | _, [] => by simp [toSextets]
  | _, [_] => by simp [toSextets]
  | _, _ :: _ :: _ => by simp [toSextets]

theorem b64e_ne_nil (bs : List Nat) (h : bs ≠ []) : b64e bs ≠ [] := by
  match bs, h with
  | a :: l, _ =>
    rw [b64e]
    intro hc
    exact toSextets_ne_nil a l (List.map_eq_nil_iff.mp hc)

theorem jsonBytes_ne_nil (p : MagicPayload) : jsonBytes p ≠ [] := by
  rw [jsonBytes]
  simp [litSid]

def splitDot : List Char → List (List Char)
  | [] => [[]]
  | c :: cs =>
      if c = '.' then [] :: splitDot cs
      else
        match splitDot cs with
        | [] => [[c]]
        | r :: rs => (c :: r) :: rs

theorem splitDot_no_dot (l : List Char) (h : '.' ∉ l) : splitDot l = [l] := by
  induction l with
  | nil => rfl
  | cons c cs ih =>
      have hc : c ≠ '.' := fun he => h (he ▸ List.mem_cons_self c cs)
      have hcs : '.' ∉ cs := fun hm => h (List.mem_cons_of_mem c hm)
      rw [splitDot, if_neg hc, ih hcs]

theorem splitDot_append (a b : List Char) (h : '.' ∉ a) :
    splitDot (a ++ '.' :: b) = a :: splitDot b := by
  induction a with
  | nil => simp [splitDot]
  | cons c cs ih =>
      have hc : c ≠ '.' := fun he => h (he ▸ List.mem_cons_self c cs)
      have hcs : '.' ∉ cs := fun hm => h (List.mem_cons_of_mem c hm)
      rw [List.cons_append, splitDot, if_neg hc, ih hcs]

def timingSafeEqual (a b : List Char) : Bool :=
  if a.length ≠ b.length then false else a == b

theorem timingSafeEqual_iff (a b : List Char) : timingSafeEqual a b = true ↔ a = b := by
  rw [timingSafeEqual]
  split
  · next h =>
      constructor
      · intro hf
        exact absurd hf (by simp)
      · intro he
        exact absurd (by rw [he]) h
  · next h => simp

def createMagicLinkToken (hmac : List Char → List Char) (p : MagicPayload) : List Char :=
  let body := b64e (jsonBytes p)
  let sig := hmac body
  body ++ '.' :: sig

def verifyMagicLinkToken (hmac : List Char → List Char) (nowSec : ℚ) (token : List Char) :
    Option MagicPayload :=
  match splitDot token with
  | body :: sig :: _ =>
      if body = [] then none
      else if sig = [] then none
      else if timingSafeEqual (hmac body) sig then
        match parsePayloadBytes (b64d body) with
        | some p => if (p.exp : ℚ) < nowSec then none else some p
        | none => none
      else none
  | _ => none

theorem verify_split (hmac : List Char → List Char) (nowSec : ℚ) (body sig : List Char)
    (hb : '.' ∉ body) (hs : '.' ∉ sig) (hbne : body ≠ []) :
    verifyMagicLinkToken hmac nowSec (body ++ '.' :: sig) =
      if sig = [] then none
      else if timingSafeEqual (hmac body) sig then
        match parsePayloadBytes (b64d body) with
        | some p => if (p.exp : ℚ) < nowSec then none else some p
        | none => none
      else none := by
  rw [verifyMagicLinkToken, splitDot_append _ _ hb, splitDot_no_dot _ hs]
  exact if_neg hbne

/-- C10: magic-link tokens round-trip. For any payload with role in
courier/supplier/buyer, sid and jti made of plain printable characters, and exp
strictly in the future, verifying the created token under the same HMAC oracle
returns the original payload; and any token carrying the same body but a
signature half different from the HMAC of that body is rejected with none. -/
theorem C10_theorem (hmac : List Char → List Char) (p : MagicPayload) (nowSec : ℚ)
    (hdot : ∀ s, '.' ∉ hmac s) (hnil : ∀ s, hmac s ≠ [])
    (hsid : ∀ c ∈ p.sid, plainChar c) (hjti : ∀ c ∈ p.jti, plainChar c)
    (hexp : nowSec < (p.exp : ℚ)) :
    verifyMagicLinkToken hmac nowSec (createMagicLinkToken hmac p) = some p ∧
      ∀ sig : List Char, '.' ∉ sig → sig ≠ hmac (b64e (jsonBytes p)) →
        verifyMagicLinkToken hmac nowSec (b64e (jsonBytes p) ++ '.' :: sig) = none := by
  have hlt := jsonBytes_lt p hsid hjti
  have hnodot : '.' ∉ b64e (jsonBytes p) := b64e_no_dot _ hlt
  have hbody_ne : b64e (jsonBytes p) ≠ [] := b64e_ne_nil _ (jsonBytes_ne_nil p)
  have hparse : parsePayloadBytes (b64d (b64e (jsonBytes p))) = some p := by
    rw [b64d_b64e _ hlt]
    exact parse_jsonBytes p hsid hjti
  constructor
  · show verifyMagicLinkToken hmac nowSec
      (b64e (jsonBytes p) ++ '.' :: hmac (b64e (jsonBytes p))) = some p
    rw [verify_split hmac nowSec _ _ hnodot (hdot _) hbody_ne,
      if_neg (hnil (b64e (jsonBytes p)))]
    have ht : timingSafeEqual (hmac (b64e (jsonBytes p))) (hmac (b64e (jsonBytes p))) = true :=
      (timingSafeEqual_iff _ _).mpr rfl
    rw [ht, if_pos rfl, hparse]
    show (if (p.exp : ℚ) < nowSec then none else some p) = some p
    rw [if_neg (not_lt.mpr (le_of_lt hexp))]
  · intro sig hsig hne
    rw [verify_split hmac nowSec _ _ hnodot hsig hbody_ne]
    by_cases hs0 : sig = []
    · rw [if_pos hs0]
    · rw [if_neg hs0]
      have ht : ¬ (timingSafeEqual (hmac (b64e (jsonBytes p))) sig = true) := by
        intro h
        exact hne ((timingSafeEqual_iff _ _).mp h).symm
      rw [if_neg ht]

theorem C10_witness :
    ((0 : ℚ) < ((100 : Nat) : ℚ)) ∧
      (verifyMagicLinkToken (fun _ => ['H', 'M']) 0
          (createMagicLinkToken (fun _ => ['H', 'M'])
            ⟨['a', 'b'], SigningSessionRole.supplier, ['c', 'd'], 100⟩) =
        some ⟨['a', 'b'], SigningSessionRole.supplier, ['c', 'd'], 100⟩ ∧
        ∀ sig : List Char, '.' ∉ sig →
          sig ≠ (fun _ : List Char => ['H', 'M']) (b64e (jsonBytes
            ⟨['a', 'b'], SigningSessionRole.supplier, ['c', 'd'], 100⟩)) →
          verifyMagicLinkToken (fun _ => ['H', 'M']) 0
            (b64e (jsonBytes ⟨['a', 'b'], SigningSessionRole.supplier, ['c', 'd'], 100⟩) ++
              '.' :: sig) = none) :=
  ⟨by simp, C10_theorem (fun _ => ['H', 'M'])
    ⟨['a', 'b'], SigningSessionRole.supplier, ['c', 'd'], 100⟩ 0
    (by intro s; show ('.' : Char) ∉ (['H', 'M'] : List Char); decide)
    (by intro s; show (['H', 'M'] : List Char) ≠ []; decide)
    (by decide) (by decide) (by simp)⟩
